import Mathlib

/-!
# Verification of the craft-demo aggregation-and-forecast pipeline

This file gives a shallow embedding of the forecast/aggregation core of the
repository and proves (or refutes) the frozen claims about it.

The embedded code:
* `services/sales_forecast.go` (the variant with built-in statistical fallback,
  `src/unnamed/part_003`, first document): the forecast handler
  `GenerateSalesForecast`, the degradation chain `generateForecastForPeriod`,
  the statistical fallback `generateSimpleForecast`, and the shared helpers
  `getForecastPeriods`, `filterToLast12Months`, `generateNextPeriod`,
  `parseSinglePeriodChatGPTResponse` — namespace `Part003`.
* `src/internal/services/sales_forecast.go` (the variant whose
  `generateForecastForPeriod` propagates errors and whose handler answers
  HTTP 500) — namespace `InternalSvc`.
* `src/app/src/App.tsx`: the period bucketer `groupDataByPeriod` and
  `prepareTimeSeriesData` — namespace `App`.

Modelling conventions:
* Go `float64` / JS `number` amounts are modelled as exact rationals `ℚ`;
  none of the claims under study concern binary floating-point rounding.
* Dates (`time.Time` at midnight UTC, JS `Date` in an idealized UTC
  environment) are civil dates `Date` (year, month, day); date arithmetic uses
  the standard days-from-civil bijection with epoch 1970-01-01 = day 0.
* I/O and nondeterminism (`os.Getenv`, the HTTP client, `rand.Float64`,
  `math.Sin`, `time.Now`) are injected through an explicit environment record.
-/

/-- A civil calendar date, as carried by Go `time.Time` (date part, UTC) and
JS `Date` (date part, UTC). -/
structure Date where
  year : Int
  month : Int
  day : Int
deriving DecidableEq, Repr

/-- Gregorian leap-year rule (Go `isLeap` / JS `Date` semantics). -/
def isLeap (y : Int) : Bool :=
  y.emod 4 = 0 && (y.emod 100 ≠ 0 || y.emod 400 = 0)

/-- Number of days in month `m` of year `y` (months 1..12). -/
def daysInMonth (y m : Int) : Int :=
  if m = 2 then (if isLeap y then 29 else 28)
  else if m = 4 || m = 6 || m = 9 || m = 11 then 30
  else 31

/-- Days since 1970-01-01 of the civil date `(y, m, d)`
(Howard Hinnant's `days_from_civil` algorithm, as used to model the date
arithmetic of Go `time` and JS `Date`). -/
def daysFromCivil (y m d : Int) : Int :=
  let y' := y - (if m ≤ 2 then 1 else 0)
  let era := Int.fdiv y' 400
  let yoe := y' - era * 400
  let mp := Int.emod (m + 9) 12
  let doy := Int.fdiv (153 * mp + 2) 5 + d - 1
  let doe := yoe * 365 + Int.fdiv yoe 4 - Int.fdiv yoe 100 + doy
  era * 146097 + doe - 719468

/-- Civil date of day number `z` (days since 1970-01-01); inverse of
`daysFromCivil` (Hinnant's `civil_from_days`). -/
def civilFromDays (z0 : Int) : Date :=
  let z := z0 + 719468
  let era := Int.fdiv z 146097
  let doe := z - era * 146097
  let yoe := Int.fdiv (doe - Int.fdiv doe 1460 + Int.fdiv doe 36524 - Int.fdiv doe 146096) 365
  let y := yoe + era * 400
  let doy := doe - (365 * yoe + Int.fdiv yoe 4 - Int.fdiv yoe 100)
  let mp := Int.fdiv (5 * doy + 2) 153
  let d := doy - Int.fdiv (153 * mp + 2) 5 + 1
  let m := mp + (if mp < 10 then 3 else -9)
  { year := (if m ≤ 2 then y + 1 else y), month := m, day := d }

/-- `daysFromCivil` applied to a `Date` record. -/
def Date.toDays (dt : Date) : Int := daysFromCivil dt.year dt.month dt.day

/-- Go `t.AddDate(years, months, days)`: add the components and renormalize
exactly as `time.Date` does (months folded into the year, then the possibly
out-of-range day added as a day offset from the first of the month). -/
def Date.addDate (dt : Date) (years months days : Int) : Date :=
  let y := dt.year + years
  let m0 := dt.month + months - 1
  let y' := y + Int.fdiv m0 12
  let m' := Int.emod m0 12 + 1
  civilFromDays (daysFromCivil y' m' 1 + (dt.day - 1) + days)

/-- Go `a.After(b)` for midnight-UTC dates. -/
def Date.after (a b : Date) : Bool := b.toDays < a.toDays

/-- Go `a.Equal(b)` for midnight-UTC dates. -/
def Date.equal (a b : Date) : Bool := a.toDays = b.toDays

/-- JS `date.getDay()` in UTC: 0 = Sunday .. 6 = Saturday
(1970-01-01 was a Thursday, weekday 4). -/
def Date.weekday (dt : Date) : Int := Int.emod (dt.toDays + 4) 7

/-- The zero value of Go `time.Time` is January 1 of year 1. -/
def goZeroDate : Date := { year := 1, month := 1, day := 1 }

/-! ## Decimal formatting (Go `fmt` / `time.Format`, JS number-to-string) -/

/-- Decimal digits, least significant first; `fuel` bounds the recursion depth
(structural, so the kernel can evaluate it). -/
def natDigitsRevAux : Nat → Nat → List Nat
  | 0, _ => []
  | fuel + 1, n => if n < 10 then [n] else n % 10 :: natDigitsRevAux fuel (n / 10)

/-- Decimal digits of `n`, least significant first. -/
def natDigitsRev (n : Nat) : List Nat := natDigitsRevAux (n + 1) n

theorem natDigitsRevAux_congr :
    ∀ (f1 f2 n : Nat), n < f1 → n < f2 → natDigitsRevAux f1 n = natDigitsRevAux f2 n := by
  intro f1
  induction f1 with
  | zero => omega
  | succ f ih =>
    intro f2 n h1 h2
    match f2, h2 with
    | f2 + 1, _ =>
      simp only [natDigitsRevAux]
      by_cases hn : n < 10
      · simp [hn]
      · simp only [hn, if_false, List.cons.injEq, true_and]
        exact ih f2 (n / 10) (by omega) (by omega)

/-- Unfolding rule for `natDigitsRev`. -/
theorem natDigitsRev_eq (n : Nat) :
    natDigitsRev n = if n < 10 then [n] else n % 10 :: natDigitsRev (n / 10) := by
  unfold natDigitsRev
  by_cases hn : n < 10
  · simp [natDigitsRevAux, hn]
  · simp only [natDigitsRevAux, hn, if_false, List.cons.injEq, true_and]
    exact natDigitsRevAux_congr n (n / 10 + 1) (n / 10) (by omega) (by omega)

/-- Decimal string of a natural number: models Go `%d` on a nonnegative `int`
and JS `Number.prototype.toString` on a nonnegative integer. -/
def decimalStr (n : Nat) : String :=
  String.mk ((natDigitsRev n).reverse.map Nat.digitChar)

/-- Two-digit zero-padded field (`"01"` in a Go layout, `padStart(2, '0')`
in the TSX); only ever applied to values `0 ≤ n < 100`. -/
def pad2 (n : Nat) : String :=
  String.mk [Nat.digitChar (n / 10), Nat.digitChar (n % 10)]

/-- Four-digit zero-padded year field (`"2006"` in a Go layout, and the year
part of JS `toISOString`); years above 9999 print unpadded. -/
def pad4 (n : Nat) : String :=
  if n < 10000 then
    String.mk [Nat.digitChar (n / 1000), Nat.digitChar (n / 100 % 10),
               Nat.digitChar (n / 10 % 10), Nat.digitChar (n % 10)]
  else decimalStr n

/-- Go `t.Format("2006-01-02")` (equally the date part of JS `toISOString`). -/
def fmtYMD (dt : Date) : String :=
  pad4 dt.year.toNat ++ "-" ++ pad2 dt.month.toNat ++ "-" ++ pad2 dt.day.toNat

/-- Go `t.Format("2006-01")`. -/
def fmtYM (dt : Date) : String :=
  pad4 dt.year.toNat ++ "-" ++ pad2 dt.month.toNat

/-! ## Label parsing (Go `time.Parse`) -/

/-- ASCII digit test. -/
def isDigitCh (c : Char) : Bool := '0' ≤ c && c ≤ '9'

/-- Numeric value of an ASCII digit character. -/
def digitVal (c : Char) : Int := Int.ofNat c.toNat - Int.ofNat '0'.toNat

/-- Go `time.Parse("2006-01-02", s)`: strict `YYYY-MM-DD`, month and day
validated against the calendar ("month/day out of range" errors → `none`). -/
def parseYMD (s : String) : Option Date :=
  match s.data with
  | [y3, y2, y1, y0, h1, m1, m0, h2, d1, d0] =>
    if isDigitCh y3 && isDigitCh y2 && isDigitCh y1 && isDigitCh y0 &&
       h1 = '-' && isDigitCh m1 && isDigitCh m0 &&
       h2 = '-' && isDigitCh d1 && isDigitCh d0 then
      let y := 1000 * digitVal y3 + 100 * digitVal y2 + 10 * digitVal y1 + digitVal y0
      let m := 10 * digitVal m1 + digitVal m0
      let d := 10 * digitVal d1 + digitVal d0
      if 1 ≤ m && m ≤ 12 && 1 ≤ d && d ≤ daysInMonth y m then
        some { year := y, month := m, day := d }
      else none
    else none
  | _ => none

/-- Go `time.Parse("2006-01", s)`: strict `YYYY-MM` (day defaults to 1). -/
def parseYM (s : String) : Option Date :=
  match s.data with
  | [y3, y2, y1, y0, h1, m1, m0] =>
    if isDigitCh y3 && isDigitCh y2 && isDigitCh y1 && isDigitCh y0 &&
       h1 = '-' && isDigitCh m1 && isDigitCh m0 then
      let y := 1000 * digitVal y3 + 100 * digitVal y2 + 10 * digitVal y1 + digitVal y0
      let m := 10 * digitVal m1 + digitVal m0
      if 1 ≤ m && m ≤ 12 then
        some { year := y, month := m, day := 1 }
      else none
    else none
  | _ => none

/-! ## JSON values and decoding (Go `encoding/json` on `[]TimeSeriesPoint`)

Byte positions in the Go parser are modelled as character positions; this is
exact for ASCII content, and the bracket bytes `[`/`]` never occur inside a
multi-byte UTF-8 sequence. -/

/-- A parsed JSON value; numbers are kept exact as rationals. -/
inductive Json where
  | null : Json
  | bool : Bool → Json
  | num : ℚ → Json
  | str : String → Json
  | arr : List Json → Json
  | obj : List (String × Json) → Json

/-- JSON insignificant whitespace. -/
def isJsonWs (c : Char) : Bool := c = ' ' || c = '\t' || c = '\n' || c = '\r'

/-- Skip leading JSON whitespace. -/
def skipWs (cs : List Char) : List Char := cs.dropWhile isJsonWs

/-- Scan a JSON string body (the opening quote already consumed), handling the
standard escapes; surrogate pairing of `\u` escapes is not rejoined (irrelevant
to the decoded fields under study). -/
def jsonStringAux : List Char → List Char → Option (String × List Char)
  | acc, '"' :: rest => some (String.mk acc.reverse, rest)
  | acc, '\\' :: 'u' :: h1 :: h2 :: h3 :: h4 :: rest =>
    let hexVal (c : Char) : Option Nat :=
      let n := c.toNat
      if isDigitCh c then some (n - 48)
      else if 97 ≤ n && n ≤ 102 then some (n - 87)
      else if 65 ≤ n && n ≤ 70 then some (n - 55)
      else none
    match hexVal h1, hexVal h2, hexVal h3, hexVal h4 with
    | some a, some b, some c, some d =>
      jsonStringAux (Char.ofNat (((a * 16 + b) * 16 + c) * 16 + d) :: acc) rest
    | _, _, _, _ => none
  | acc, '\\' :: e :: rest =>
    match e with
    | '"' => jsonStringAux ('"' :: acc) rest
    | '\\' => jsonStringAux ('\\' :: acc) rest
    | '/' => jsonStringAux ('/' :: acc) rest
    | 'b' => jsonStringAux ('\x08' :: acc) rest
    | 'f' => jsonStringAux ('\x0c' :: acc) rest
    | 'n' => jsonStringAux ('\n' :: acc) rest
    | 'r' => jsonStringAux ('\r' :: acc) rest
    | 't' => jsonStringAux ('\t' :: acc) rest
    | _ => none
  | _, [] => none
  | acc, c :: rest => jsonStringAux (c :: acc) rest

/-- Numeric value of a list of ASCII digits (most significant first). -/
def digitsToNat (ds : List Char) : Nat :=
  ds.foldl (fun a c => 10 * a + (c.toNat - '0'.toNat)) 0

/-- Scan a JSON number per RFC 8259 grammar
(`-?(0|[1-9][0-9]*)(\.[0-9]+)?([eE][+-]?[0-9]+)?`), returning its exact value. -/
def jsonNumber (cs : List Char) : Option (ℚ × List Char) :=
  let (neg, cs1) := match cs with
    | '-' :: rest => (true, rest)
    | _ => (false, cs)
  let intPart : Option (List Char × List Char) := match cs1 with
    | '0' :: rest => if (rest.headD ' ').isDigit then none else some (['0'], rest)
    | c :: _ =>
      if isDigitCh c then
        some (cs1.takeWhile isDigitCh, cs1.dropWhile isDigitCh)
      else none
    | [] => none
  match intPart with
  | none => none
  | some (ids, cs2) =>
    let fracPart : Option (List Char × List Char) := match cs2 with
      | '.' :: rest =>
        let fs := rest.takeWhile isDigitCh
        if fs = [] then none else some (fs, rest.dropWhile isDigitCh)
      | _ => some ([], cs2)
    match fracPart with
    | none => none
    | some (fds, cs3) =>
      let expPart : Option (Int × List Char) := match cs3 with
        | 'e' :: rest | 'E' :: rest =>
          let (esign, rest2) := match rest with
            | '+' :: r => ((1 : Int), r)
            | '-' :: r => ((-1 : Int), r)
            | _ => ((1 : Int), rest)
          let es := rest2.takeWhile isDigitCh
          if es = [] then none
          else some (esign * Int.ofNat (digitsToNat es), rest2.dropWhile isDigitCh)
        | _ => some (0, cs3)
      match expPart with
      | none => none
      | some (ex, cs4) =>
        let mantissa : ℚ := (digitsToNat (ids ++ fds) : ℚ) / (10 : ℚ) ^ fds.length
        let value := (if neg then -mantissa else mantissa) * (10 : ℚ) ^ ex
        some (value, cs4)

mutual

/-- Recursive-descent JSON value parser (fuel-bounded, as the Go scanner is
bounded by the input length). -/
def jsonValue : Nat → List Char → Option (Json × List Char)
  | 0, _ => none
  | fuel + 1, cs =>
    match skipWs cs with
    | 'n' :: 'u' :: 'l' :: 'l' :: rest => some (.null, rest)
    | 't' :: 'r' :: 'u' :: 'e' :: rest => some (.bool true, rest)
    | 'f' :: 'a' :: 'l' :: 's' :: 'e' :: rest => some (.bool false, rest)
    | '"' :: rest => (jsonStringAux [] rest).map (fun (s, r) => (.str s, r))
    | '[' :: rest =>
      (match skipWs rest with
       | ']' :: rest2 => some (.arr [], rest2)
       | _ => (jsonElems fuel rest).map (fun (vs, r) => (.arr vs, r)))
    | '{' :: rest =>
      (match skipWs rest with
       | '}' :: rest2 => some (.obj [], rest2)
       | _ => (jsonMembers fuel rest).map (fun (fs, r) => (.obj fs, r)))
    | cs' => (jsonNumber cs').map (fun (q, r) => (.num q, r))

/-- One-or-more array elements up to the closing `]`. -/
def jsonElems : Nat → List Char → Option (List Json × List Char)
  | 0, _ => none
  | fuel + 1, cs =>
    match jsonValue fuel cs with
    | none => none
    | some (v, rest) =>
      match skipWs rest with
      | ',' :: rest2 => (jsonElems fuel rest2).map (fun (vs, r) => (v :: vs, r))
      | ']' :: rest2 => some ([v], rest2)
      | _ => none

/-- One-or-more object members up to the closing `}`. -/
def jsonMembers : Nat → List Char → Option (List (String × Json) × List Char)
  | 0, _ => none
  | fuel + 1, cs =>
    match skipWs cs with
    | '"' :: rest =>
      match jsonStringAux [] rest with
      | none => none
      | some (k, rest2) =>
        match skipWs rest2 with
        | ':' :: rest3 =>
          match jsonValue fuel rest3 with
          | none => none
          | some (v, rest4) =>
            match skipWs rest4 with
            | ',' :: rest5 => (jsonMembers fuel rest5).map (fun (fs, r) => ((k, v) :: fs, r))
            | '}' :: rest5 => some ([(k, v)], rest5)
            | _ => none
        | _ => none
    | _ => none

end

/-- Parse a complete JSON document (no trailing non-whitespace), as
`json.Unmarshal` requires. -/
def jsonParse (s : String) : Option Json :=
  match jsonValue (2 * s.data.length + 2) s.data with
  | none => none
  | some (v, rest) => if skipWs rest = [] then some v else none

/-- ASCII lower-casing, for Go's case-insensitive JSON field matching. -/
def asciiLower (c : Char) : Char :=
  if 'A' ≤ c && c ≤ 'Z' then Char.ofNat (c.toNat + 32) else c

/-- Go `encoding/json` field-name match (ASCII case-insensitive). -/
def jsonFieldMatch (k name : String) : Bool :=
  k.data.map asciiLower = name.data.map asciiLower

/-! ## Go data model (`sales_forecast.go`, shared by both variants) -/

/-- `TimeSeriesPoint`: one `(period, total)` entry. -/
structure TimeSeriesPoint where
  period : String
  total : ℚ
deriving DecidableEq, Repr

/-- `ForecastRequest`. `PeriodsToForecast` is a count; every call site under
study sets it through `getForecastPeriods`, so it is modelled as a natural
number. -/
structure ForecastRequest where
  timeSeriesData : List TimeSeriesPoint
  timePeriod : String
  periodsToForecast : Nat
deriving DecidableEq, Repr

/-- `ForecastResponse` of the single-period variant. -/
structure ForecastResponse where
  forecast : List TimeSeriesPoint
  timePeriod : String
  message : String
  rawResponse : String
deriving DecidableEq, Repr

/-- A ChatGPT conversation message. -/
structure Message where
  role : String
  content : String
deriving DecidableEq, Repr

/-- `ChatGPTRequest`. -/
structure ChatGPTRequest where
  model : String
  messages : List Message
deriving DecidableEq, Repr

/-- A `Choice` of a `ChatGPTResponse`. -/
structure Choice where
  message : Message
deriving DecidableEq, Repr

/-- `ChatGPTResponse`. -/
structure ChatGPTResponse where
  choices : List Choice
deriving DecidableEq, Repr

/-- Decode one JSON array element into a `TimeSeriesPoint` as
`encoding/json` does for the target struct: objects fill the matched fields
(last duplicate wins, unknown keys ignored, `null` leaves the zero value),
`null` leaves the zero struct, any other value is an unmarshal error. -/
def decodePoint : Json → Option TimeSeriesPoint
  | .obj fields =>
    fields.foldlM (fun (pt : TimeSeriesPoint) (kv : String × Json) =>
      if jsonFieldMatch kv.1 "period" then
        match kv.2 with
        | .str s => some { pt with period := s }
        | .null => some pt
        | _ => none
      else if jsonFieldMatch kv.1 "total" then
        match kv.2 with
        | .num q => some { pt with total := q }
        | .null => some pt
        | _ => none
      else some pt) { period := "", total := 0 }
  | .null => some { period := "", total := 0 }
  | _ => none

/-- `json.Unmarshal([]byte(s), &forecast)` for `forecast []TimeSeriesPoint`:
`none` is an unmarshal error. -/
def goUnmarshalPoints (s : String) : Option (List TimeSeriesPoint) :=
  match jsonParse s with
  | none => none
  | some (.arr xs) => xs.mapM decodePoint
  | some .null => some []
  | some _ => none

/-! ## Shared service helpers (identical in both Go variants) -/

/-- `getForecastPeriods`. -/
def getForecastPeriods (timePeriod : String) : Nat :=
  if timePeriod = "day" then 14
  else if timePeriod = "week" then 4
  else if timePeriod = "month" then 6
  else 12

/-- The period-label parse attempt of `filterToLast12Months`:
`YYYY-MM-DD` first, then `YYYY-MM`. -/
def parsePeriodLabel (p : String) : Option Date :=
  match parseYMD p with
  | some d => some d
  | none => parseYM p

/-- `filterToLast12Months`: latest parsable date (starting from the zero
`time.Time`), cutoff 12 months earlier via `AddDate(0, -12, 0)`, keep points
on or after the cutoff; unparsable points are skipped. -/
def filterToLast12Months (data : List TimeSeriesPoint) : List TimeSeriesPoint :=
  if data = [] then data
  else
    let latest := data.foldl (fun acc pt =>
      match parsePeriodLabel pt.period with
      | none => acc
      | some d => if d.after acc then d else acc) goZeroDate
    let cutoff := latest.addDate 0 (-12) 0
    data.filter (fun pt =>
      match parsePeriodLabel pt.period with
      | none => false
      | some d => d.after cutoff || d.equal cutoff)

/-- `generateNextPeriod` (from the part_003 variant): advance the trailing
period label; a label that fails to parse silently falls back to `time.Now()`
(injected here as `now`). The offset is the loop counter `i+1`, always
positive. -/
def generateNextPeriod (now : Date) (lastPeriod timePeriod : String) (offset : Nat) : String :=
  if timePeriod = "day" then
    fmtYMD (((parseYMD lastPeriod).getD now).addDate 0 0 offset)
  else if timePeriod = "week" then
    fmtYMD (((parseYMD lastPeriod).getD now).addDate 0 0 (offset * 7))
  else if timePeriod = "month" then
    let base := match parseYM lastPeriod with
      | some d => d
      | none => (parseYMD lastPeriod).getD now
    fmtYM (base.addDate 0 offset 0)
  else
    "forecast-" ++ decimalStr offset

/-- The index (into the content) at which the extracted JSON candidate starts:
first `[` among positions `0 .. len-2`, else 0 (`start` keeps its initial
value when the scan finds nothing). -/
def scanOpen (cs : List Char) : Nat :=
  match (cs.take (cs.length - 1)).findIdx? (· = '[') with
  | some i => i
  | none => 0

/-- Downward scan `for i := len-1; i > start; i--` for the last `]`. -/
def scanCloseAux (cs : List Char) (start : Nat) : Nat → Option Nat
  | 0 => none
  | i + 1 =>
    if i + 1 ≤ start then none
    else if cs.getD (i + 1) ' ' = ']' then some (i + 1)
    else scanCloseAux cs start i

/-- The (exclusive) end index of the extracted JSON candidate: one past the
last `]` found above `start`, else `len` (`end` keeps its initial value). -/
def scanClose (cs : List Char) (start : Nat) : Nat :=
  match scanCloseAux cs start (cs.length - 1) with
  | some i => i + 1
  | none => cs.length

/-- `parseSinglePeriodChatGPTResponse` (identical in both Go variants):
bracket extraction then JSON decoding; on success also returns the full raw
content. -/
def parseSinglePeriodChatGPTResponse (response : ChatGPTResponse) :
    Except String (List TimeSeriesPoint × String) :=
  match response.choices with
  | [] => .error "no choices in ChatGPT response"
  | c :: _ =>
    let content := c.message.content
    let cs := content.data
    let start := scanOpen cs
    let stop := scanClose cs start
    if stop ≤ start then .error "could not find JSON array in response"
    else
      let jsonStr := String.mk ((cs.drop start).take (stop - start))
      match goUnmarshalPoints jsonStr with
      | none => .error "failed to parse single-period JSON"
      | some forecast => .ok (forecast, content)

/-- Go `%.2f` on an exact amount: sign, then the absolute value rounded to
two decimals (`fmt` rounds the decimal expansion to even on exact ties of the
binary value; amounts are exact rationals here, rounded half up — no claim
under study depends on the prompt text). -/
def fmtF2 (q : ℚ) : String :=
  let c := round (|q| * 100)
  let n := c.toNat
  (if q < 0 then "-" else "") ++ decimalStr (n / 100) ++ "." ++ pad2 (n % 100)

/-- `createRequestForPeriod` (identical in both Go variants). -/
def createRequestForPeriod (request : ForecastRequest) (timePeriod : String) : ForecastRequest :=
  { request with
    timePeriod := timePeriod
    periodsToForecast := getForecastPeriods timePeriod }

namespace Part003

/-- The effect environment of one forecast invocation: the credential read
from the process environment, the outcomes of the two outbound HTTP calls,
the `math.Sin`/`rand.Float64` draws of the fallback estimator (`sinStep i`
models `math.Sin(float64(i) * π / 6)`), and `time.Now()`. -/
structure Env where
  apiKey : String
  testAPI : Except String Unit
  send : ChatGPTRequest → Except String ChatGPTResponse
  sinStep : Nat → ℚ
  rand : Nat → ℚ
  now : Date

/-- `filterToDailyData` (a placeholder in the source: returns the data). -/
def filterToDailyData (data : List TimeSeriesPoint) : List TimeSeriesPoint := data

/-- `filterToWeeklyData` (a placeholder in the source: returns the data). -/
def filterToWeeklyData (data : List TimeSeriesPoint) : List TimeSeriesPoint := data

/-- The `<historical_data>` XML block of the prompt. -/
def xmlForDataPoints (data : List TimeSeriesPoint) : String :=
  "<historical_data>\n" ++
    String.join (data.map (fun p =>
      "  <data_point>\n    <period>" ++ p.period ++ "</period>\n    <total>" ++
        fmtF2 p.total ++ "</total>\n  </data_point>\n")) ++
  "</historical_data>"

/-- `buildForecastPromptForPeriod`: filter to the trailing 12 months, select
the period view (the day/week filters are identity placeholders), and wrap
the XML block in the instruction text. -/
def buildForecastPromptForPeriod (request : ForecastRequest) (timePeriod : String) : String :=
  let filteredData := filterToLast12Months request.timeSeriesData
  let periodData :=
    if timePeriod = "day" then filterToDailyData filteredData
    else if timePeriod = "week" then filterToWeeklyData filteredData
    else filteredData
  let xmlData := xmlForDataPoints periodData
  let forecastPeriods := getForecastPeriods timePeriod
  let periodLabel :=
    if timePeriod = "day" then "daily"
    else if timePeriod = "week" then "weekly"
    else if timePeriod = "month" then "monthly"
    else "period"
  "\nYou are a data analyst specializing in time series forecasting. You are given historical " ++
    periodLabel ++ " sales data for a single category.\nUsing this historical data, provide a " ++
    periodLabel ++ " sales forecast for the next " ++ decimalStr forecastPeriods ++
    " periods, highlighting potential seasonal fluctuations.\n\nThings to consider:\n" ++
    " - Sales data is for a single category of multiple products.\n" ++
    " - The response should follow the JSON format below.\n" ++
    " - Consider trends, seasonality, and patterns in the data.\n" ++
    " - Remove any data points that are anomalies or outliers.\n\n" ++
    "<historical_data>\n" ++ xmlData ++ "\n</historical_data>\n\n" ++
    "Please provide the forecast in JSON response format like this:\n[\n" ++
    "  \x7b\"period\": \"2024-01-01\", \"total\": 1500.00\x7d,\n" ++
    "  \x7b\"period\": \"2024-01-02\", \"total\": 1600.00\x7d\n]\n\n" ++
    "Consider trends, seasonality, and patterns in the data."

/-- The forecast loop of `generateSimpleForecast` in the trend branch
(`olderValues` non-empty): trend plus seasonal sine factor plus bounded
random factor, clamped at zero. -/
def seasonalForecastPoints (env : Env) (timePeriod lastPeriod : String) (n : Nat)
    (avgRecent trend : ℚ) : List TimeSeriesPoint :=
  (List.range n).map fun i =>
    let nextPeriod := generateNextPeriod env.now lastPeriod timePeriod (i + 1)
    let seasonality : ℚ := 1/10
    let volatility : ℚ := 1/20
    let baseValue := avgRecent + trend * ((i : ℚ) + 1)
    let seasonalFactor := 1 + seasonality * env.sinStep i
    let randomFactor := 1 + (env.rand i - 1/2) * volatility * 2
    let forecastValue := baseValue * seasonalFactor * randomFactor
    { period := nextPeriod, total := if forecastValue < 0 then 0 else forecastValue }

/-- The forecast loop of `generateSimpleForecast` in the plain-linear branch
(`olderValues` empty): no seasonal or random factor, clamped at zero. -/
def linearForecastPoints (env : Env) (timePeriod lastPeriod : String) (n : Nat)
    (avgRecent trend : ℚ) : List TimeSeriesPoint :=
  (List.range n).map fun i =>
    let nextPeriod := generateNextPeriod env.now lastPeriod timePeriod (i + 1)
    let forecastValue := avgRecent + trend * ((i : ℚ) + 1)
    { period := nextPeriod, total := if forecastValue < 0 then 0 else forecastValue }

/-- `generateSimpleForecast` of the part_003 variant: filter to the last 12
months, require at least 2 points, average a recent window of
`min(3, len)` values, and branch on whether any older values remain. -/
def generateSimpleForecast (env : Env) (request : ForecastRequest) : List TimeSeriesPoint :=
  let filteredData := filterToLast12Months request.timeSeriesData
  if filteredData.length < 2 then []
  else
    let values := filteredData.map (·.total)
    let windowSize := if values.length < 3 then values.length else 3
    let recentValues := values.drop (values.length - windowSize)
    let avgRecent := recentValues.sum / (recentValues.length : ℚ)
    let olderValues := values.take (values.length - windowSize)
    let lastPeriod := (filteredData.getLastD { period := "", total := 0 }).period
    if 0 < olderValues.length then
      let avgOlder := olderValues.sum / (olderValues.length : ℚ)
      let trend := (avgRecent - avgOlder) / (windowSize : ℚ)
      seasonalForecastPoints env request.timePeriod lastPeriod request.periodsToForecast
        avgRecent trend
    else
      let trend := (avgRecent - values.headD 0) / ((values.length : ℚ) - 1)
      linearForecastPoints env request.timePeriod lastPeriod request.periodsToForecast
        avgRecent trend

/-- The system+user message list sent for a single-period forecast. -/
def chatRequestFor (prompt : String) : ChatGPTRequest :=
  { model := "gpt-3.5-turbo"
    messages :=
      [{ role := "system"
         content := "You are a data analyst specializing in time series forecasting. Provide forecasts in JSON format with an array of objects containing 'period' and 'total' fields." },
       { role := "user", content := prompt }] }

/-- `generateForecastForPeriod` of the part_003 variant: every failure point
(absent/short/badly-prefixed credential, failing API test, failing request,
unparsable response) degrades to `generateSimpleForecast` with a `nil` error;
the error result is never used. -/
def generateForecastForPeriod (env : Env) (request : ForecastRequest) (timePeriod : String) :
    Except String (List TimeSeriesPoint × String) :=
  if env.apiKey = "" then
    .ok (generateSimpleForecast env (createRequestForPeriod request timePeriod),
         "Simple forecast generated (no API key)")
  else if env.apiKey = "" || env.apiKey.length < 10 then
    .ok (generateSimpleForecast env (createRequestForPeriod request timePeriod),
         "Simple forecast generated (invalid API key)")
  else if env.apiKey.length < 3 || (env.apiKey.take 3 ≠ "sk-") then
    .ok (generateSimpleForecast env (createRequestForPeriod request timePeriod),
         "Simple forecast generated (invalid API key format)")
  else
    match env.testAPI with
    | .error _ =>
      .ok (generateSimpleForecast env (createRequestForPeriod request timePeriod),
           "Simple forecast generated (API test failed)")
    | .ok _ =>
      let prompt := buildForecastPromptForPeriod request timePeriod
      match env.send (chatRequestFor prompt) with
      | .error _ =>
        .ok (generateSimpleForecast env (createRequestForPeriod request timePeriod),
             "Simple forecast generated (ChatGPT request failed)")
      | .ok response =>
        match parseSinglePeriodChatGPTResponse response with
        | .error _ =>
          .ok (generateSimpleForecast env (createRequestForPeriod request timePeriod),
               "Simple forecast generated (parsing failed)")
        | .ok (forecast, rawResponse) => .ok (forecast, rawResponse)

/-- The HTTP handler `GenerateSalesForecast` of the part_003 variant, from the
series validation on (request binding is routing, out of scope): empty series
is a 400, otherwise the defaulted granularity is forecast and any error from
`generateForecastForPeriod` (none can occur in this variant) would again fall
back to `generateSimpleForecast`. `.error (status, msg)` models an error JSON
reply with that HTTP status. -/
def GenerateSalesForecast (env : Env) (request : ForecastRequest) :
    Except (Nat × String) ForecastResponse :=
  if request.timeSeriesData.length = 0 then
    .error (400, "No time series data provided")
  else
    let timePeriod := if request.timePeriod = "" then "month" else request.timePeriod
    match generateForecastForPeriod env request timePeriod with
    | .error _ =>
      .ok { timePeriod := timePeriod
            message := "Forecast generated successfully"
            forecast := generateSimpleForecast env (createRequestForPeriod request timePeriod)
            rawResponse := "" }
    | .ok (forecast, rawResponse) =>
      .ok { timePeriod := timePeriod
            message := "Forecast generated successfully"
            forecast := forecast
            rawResponse := rawResponse }

end Part003

namespace InternalSvc

/-- `generateForecastForPeriod` of `internal/services/sales_forecast.go`: the
same credential checks, but every failure is returned as an error (and no API
test call is made). -/
def generateForecastForPeriod (env : Part003.Env) (request : ForecastRequest)
    (timePeriod : String) : Except String (List TimeSeriesPoint × String) :=
  if env.apiKey = "" then .error "no OpenAI API key found"
  else if env.apiKey.length < 10 then .error "invalid OpenAI API key"
  else if env.apiKey.length < 3 || (env.apiKey.take 3 ≠ "sk-") then
    .error "invalid OpenAI API key format"
  else
    let prompt := Part003.buildForecastPromptForPeriod request timePeriod
    match env.send (Part003.chatRequestFor prompt) with
    | .error e => .error ("ChatGPT request failed: " ++ e)
    | .ok response =>
      match parseSinglePeriodChatGPTResponse response with
      | .error e => .error ("failed to parse ChatGPT response: " ++ e)
      | .ok (forecast, rawResponse) => .ok (forecast, rawResponse)

/-- The HTTP handler `GenerateSalesForecast` of
`internal/services/sales_forecast.go`: an error from
`generateForecastForPeriod` is answered with HTTP 500 — there is no
statistical fallback in this variant. -/
def GenerateSalesForecast (env : Part003.Env) (request : ForecastRequest) :
    Except (Nat × String) ForecastResponse :=
  if request.timeSeriesData.length = 0 then
    .error (400, "No time series data provided")
  else
    let timePeriod := if request.timePeriod = "" then "month" else request.timePeriod
    match generateForecastForPeriod env request timePeriod with
    | .error _ => .error (500, "Failed to generate forecast")
    | .ok (forecast, rawResponse) =>
      .ok { timePeriod := timePeriod
            message := "Forecast generated successfully"
            forecast := forecast
            rawResponse := rawResponse }

end InternalSvc

namespace App

/-- The TSX `TimePeriod` union type. -/
inductive TimePeriod where
  | day : TimePeriod
  | week : TimePeriod
  | month : TimePeriod
deriving DecidableEq, Repr

/-- `CategoryTotal` (App.tsx): one category's net amount for one day. -/
structure CategoryTotal where
  categoryName : String
  totalAmount : ℚ
deriving DecidableEq, Repr

/-- `SalesData`: the date-keyed record of category totals, as the ordered
entry list `Object.entries` yields. The date keys arrive as `YYYY-MM-DD`
strings from the storage collaborator and are parsed by `new Date`; they are
modelled pre-parsed (a malformed key is a precondition violation per the
collaborator contract, not handled in this code). -/
abbrev SalesData := List (Date × List CategoryTotal)

/-- The bucket key `groupDataByPeriod` computes for one observation date:
day keys via `toISOString`, week keys as the Sunday `setDate(getDate() -
getDay())` start, month keys as `` `${getFullYear()}-${pad2(getMonth()+1)}` ``
(the JS `Date` accessors read in an idealized UTC environment). -/
def periodKeyOf (period : TimePeriod) (date : Date) : String :=
  match period with
  | .day => fmtYMD date
  | .week => fmtYMD (civilFromDays (date.toDays - date.weekday))
  | .month => decimalStr date.year.toNat ++ "-" ++ pad2 date.month.toNat

/-- Read a JS record field (`groupedData[key]`). -/
def jsRecordGet (m : List (String × ℚ)) (k : String) : Option ℚ :=
  (m.find? (·.1 = k)).map (·.2)

/-- Write a JS record field: overwrite in place when present, else append
(JS objects keep insertion order for such string keys). -/
def jsRecordPut (m : List (String × ℚ)) (k : String) (v : ℚ) : List (String × ℚ) :=
  if (m.find? (·.1 = k)).isSome then
    m.map (fun e => if e.1 = k then (k, v) else e)
  else m ++ [(k, v)]

/-- One `Object.entries(data).forEach` step of `groupDataByPeriod`, with JS
truthiness on the accumulated value (`0` is falsy, so a zero entry is
overwritten rather than added to — same sum either way). -/
def groupStep (period : TimePeriod) (m : List (String × ℚ))
    (entry : Date × List CategoryTotal) : List (String × ℚ) :=
  let periodKey := periodKeyOf period entry.1
  let periodTotal := entry.2.foldl (fun sum category => sum + category.totalAmount) 0
  match jsRecordGet m periodKey with
  | some t => if t ≠ 0 then jsRecordPut m periodKey (t + periodTotal)
              else jsRecordPut m periodKey periodTotal
  | none => jsRecordPut m periodKey periodTotal

/-- `groupDataByPeriod`: accumulate per-bucket sums into an insertion-ordered
record. -/
def groupDataByPeriod (data : SalesData) (period : TimePeriod) : List (String × ℚ) :=
  data.foldl (groupStep period) []

/-- JS `Math.round(total * 100) / 100` (round half toward `+∞`). -/
def jsRound2 (q : ℚ) : ℚ := (round (q * 100) : ℚ) / 100

/-- Code-point-lexicographic `≤` on character lists, modelling
`a.localeCompare(b) ≤ 0` (the en-US collation of these digit-and-hyphen key
strings coincides with code-point order). -/
def chListLe : List Char → List Char → Bool
  | [], _ => true
  | _ :: _, [] => false
  | a :: as, b :: bs => if a < b then true else if b < a then false else chListLe as bs

/-- `new Date(s).getTime()` on a bucket key, up to the constant 86400000 ms
scale: the day number of the parsed date. All keys this code sorts are valid
`YYYY-MM-DD` strings it produced itself (an invalid key would give `NaN`). -/
def keyTimeRank (s : String) : Int :=
  match parseYMD s with
  | some d => d.toDays
  | none => 0

/-- The `.sort` comparator of `prepareTimeSeriesData` as a `≤` test:
`localeCompare` for month keys, parsed `getTime` order otherwise. -/
def tsLe (period : TimePeriod) (a b : TimeSeriesPoint) : Bool :=
  match period with
  | .month => chListLe a.period.data b.period.data
  | _ => keyTimeRank a.period ≤ keyTimeRank b.period

/-- `prepareTimeSeriesData`: round each bucket total to cents and sort
(`Array.prototype.sort` is a stable comparison sort; modelled as merge
sort). -/
def prepareTimeSeriesData (data : SalesData) (period : TimePeriod) : List TimeSeriesPoint :=
  (((groupDataByPeriod data period).map
      (fun e => { period := e.1, total := jsRound2 e.2 : TimeSeriesPoint }))).mergeSort
    (tsLe period)

end App

section SanityChecks

example : daysFromCivil 1970 1 1 = 0 := by decide
example : civilFromDays 0 = { year := 1970, month := 1, day := 1 } := by decide
example : daysFromCivil 2024 3 1 = 19783 := by decide
example : civilFromDays 19783 = { year := 2024, month := 3, day := 1 } := by decide
example : (Date.mk 2024 1 31).addDate 0 1 0 = { year := 2024, month := 3, day := 2 } := by decide
example : (Date.mk 2024 1 29).addDate 0 0 3 = { year := 2024, month := 2, day := 1 } := by decide
example : (Date.mk 2024 1 1).weekday = 1 := by decide
example : fmtYMD { year := 2024, month := 2, day := 1 } = "2024-02-01" := by decide
example : fmtYM { year := 2025, month := 1, day := 1 } = "2025-01" := by decide
example : parseYMD "2024-01-29" = some { year := 2024, month := 1, day := 29 } := by decide
example : parseYMD "2024-02-30" = none := by decide
example : parseYMD "not-a-date" = none := by decide
example : parseYM "2024-12" = some { year := 2024, month := 12, day := 1 } := by decide
example : parseYM "2024-01-02" = none := by decide
example : decimalStr 12 = "12" := by decide

example : goUnmarshalPoints "[\x7b\"period\":\"2024-02\",\"total\":500.0\x7d]" =
    some [{ period := "2024-02", total := 500 }] := by
  have h0 : goUnmarshalPoints "[\x7b\"period\":\"2024-02\",\"total\":500.0\x7d]" =
      some [{ period := "2024-02",
              total := (digitsToNat ['5', '0', '0', '0'] : ℚ) / 10 ^ (1 : Nat) * 10 ^ (0 : Int) }] := rfl
  rw [h0, show digitsToNat ['5', '0', '0', '0'] = 5000 from by decide]
  norm_num

example : filterToLast12Months
    [{ period := "2020-01", total := 5 }, { period := "2024-01", total := 7 }] =
    [{ period := "2024-01", total := 7 }] := by decide

example : generateNextPeriod goZeroDate "2024-01" "month" 1 = "2024-02" := by decide

end SanityChecks

/-! ## Structure lemmas for the fallback estimator -/

theorem generateNextPeriod_default (now : Date) (lastPeriod tp : String) (k : Nat)
    (h1 : tp ≠ "day") (h2 : tp ≠ "week") (h3 : tp ≠ "month") :
    generateNextPeriod now lastPeriod tp k = "forecast-" ++ decimalStr k := by
  simp [generateNextPeriod, h1, h2, h3]

theorem getForecastPeriods_default (tp : String)
    (h1 : tp ≠ "day") (h2 : tp ≠ "week") (h3 : tp ≠ "month") :
    getForecastPeriods tp = 12 := by
  simp [getForecastPeriods, h1, h2, h3]

namespace Part003

theorem seasonalForecastPoints_length (env : Env) (tp lastP : String) (n : Nat)
    (avg trend : ℚ) : (seasonalForecastPoints env tp lastP n avg trend).length = n := by
  simp [seasonalForecastPoints]

theorem linearForecastPoints_length (env : Env) (tp lastP : String) (n : Nat)
    (avg trend : ℚ) : (linearForecastPoints env tp lastP n avg trend).length = n := by
  simp [linearForecastPoints]

theorem seasonalForecastPoints_map_period (env : Env) (tp lastP : String) (n : Nat)
    (avg trend : ℚ) :
    (seasonalForecastPoints env tp lastP n avg trend).map (·.period) =
      (List.range n).map (fun i => generateNextPeriod env.now lastP tp (i + 1)) := by
  simp [seasonalForecastPoints, List.map_map]

theorem linearForecastPoints_map_period (env : Env) (tp lastP : String) (n : Nat)
    (avg trend : ℚ) :
    (linearForecastPoints env tp lastP n avg trend).map (·.period) =
      (List.range n).map (fun i => generateNextPeriod env.now lastP tp (i + 1)) := by
  simp [linearForecastPoints, List.map_map]

/-- With fewer than 2 filtered points the estimator yields the empty list. -/
theorem generateSimpleForecast_short (env : Env) (request : ForecastRequest)
    (h : (filterToLast12Months request.timeSeriesData).length < 2) :
    generateSimpleForecast env request = [] := by
  simp only [generateSimpleForecast]
  rw [if_pos h]

/-- With at least 2 filtered points the estimator emits exactly
`periodsToForecast` points, whatever branch it takes. -/
theorem generateSimpleForecast_length (env : Env) (request : ForecastRequest)
    (h : 2 ≤ (filterToLast12Months request.timeSeriesData).length) :
    (generateSimpleForecast env request).length = request.periodsToForecast := by
  simp only [generateSimpleForecast]
  rw [if_neg (by omega)]
  split
  · split
    · exact seasonalForecastPoints_length ..
    · exact linearForecastPoints_length ..
  · split
    · exact seasonalForecastPoints_length ..
    · exact linearForecastPoints_length ..

/-- With at least 2 filtered points the period labels are
`generateNextPeriod` applied to offsets `1 .. periodsToForecast`, whatever
branch the estimator takes. -/
theorem generateSimpleForecast_map_period (env : Env) (request : ForecastRequest)
    (h : 2 ≤ (filterToLast12Months request.timeSeriesData).length) :
    (generateSimpleForecast env request).map (·.period) =
      (List.range request.periodsToForecast).map (fun i =>
        generateNextPeriod env.now
          ((filterToLast12Months request.timeSeriesData).getLastD
            { period := "", total := 0 }).period
          request.timePeriod (i + 1)) := by
  simp only [generateSimpleForecast]
  rw [if_neg (by omega)]
  split
  · split
    · exact seasonalForecastPoints_map_period ..
    · exact linearForecastPoints_map_period ..
  · split
    · exact seasonalForecastPoints_map_period ..
    · exact linearForecastPoints_map_period ..

end Part003

/-! ## Claim C10 — default granularity: 12 labels `forecast-1` .. `forecast-12` -/

/-- C10: for any granularity other than `"day"`, `"week"`, `"month"`, a series
whose last-12-months filtered form still has at least 2 points makes the
fallback estimator produce exactly 12 points (the `getForecastPeriods`
default) labelled `"forecast-1"` through `"forecast-12"` in order. -/
theorem fallback_default_granularity_labels (env : Part003.Env) (data : List TimeSeriesPoint)
    (tp tp0 : String) (n0 : Nat)
    (h1 : tp ≠ "day") (h2 : tp ≠ "week") (h3 : tp ≠ "month")
    (hlen : 2 ≤ (filterToLast12Months data).length) :
    (Part003.generateSimpleForecast env
        (createRequestForPeriod { timeSeriesData := data, timePeriod := tp0,
                                  periodsToForecast := n0 } tp)).length = 12 ∧
    (Part003.generateSimpleForecast env
        (createRequestForPeriod { timeSeriesData := data, timePeriod := tp0,
                                  periodsToForecast := n0 } tp)).map (·.period) =
      ["forecast-1", "forecast-2", "forecast-3", "forecast-4", "forecast-5", "forecast-6",
       "forecast-7", "forecast-8", "forecast-9", "forecast-10", "forecast-11", "forecast-12"] := by
  have hreq : createRequestForPeriod
      { timeSeriesData := data, timePeriod := tp0, periodsToForecast := n0 } tp =
      { timeSeriesData := data, timePeriod := tp, periodsToForecast := getForecastPeriods tp } :=
    rfl
  rw [hreq]
  constructor
  · rw [Part003.generateSimpleForecast_length env _ hlen]
    exact getForecastPeriods_default tp h1 h2 h3
  · rw [Part003.generateSimpleForecast_map_period env _ hlen]
    simp only [getForecastPeriods_default tp h1 h2 h3]
    have hlabel : ∀ i : Nat,
        generateNextPeriod env.now
          ((filterToLast12Months data).getLastD { period := "", total := 0 }).period tp (i + 1) =
        "forecast-" ++ decimalStr (i + 1) := fun i =>
      generateNextPeriod_default env.now _ tp (i + 1) h1 h2 h3
    simp only [hlabel]
    decide

/-- Witness for C10 at a concrete environment, series and granularity. -/
theorem fallback_default_granularity_labels_witness :
    2 ≤ (filterToLast12Months
          [{ period := "2024-01", total := 0 }, { period := "2024-02", total := 10 }]).length ∧
    (Part003.generateSimpleForecast
        { apiKey := "", testAPI := .ok (), send := fun _ => .error "offline",
          sinStep := fun _ => 0, rand := fun _ => 0,
          now := { year := 2025, month := 1, day := 1 } }
        (createRequestForPeriod
          { timeSeriesData := [{ period := "2024-01", total := 0 },
                               { period := "2024-02", total := 10 }],
            timePeriod := "", periodsToForecast := 0 } "year")).map (·.period) =
      ["forecast-1", "forecast-2", "forecast-3", "forecast-4", "forecast-5", "forecast-6",
       "forecast-7", "forecast-8", "forecast-9", "forecast-10", "forecast-11", "forecast-12"] :=
  ⟨by decide,
   (fallback_default_granularity_labels
      { apiKey := "", testAPI := .ok (), send := fun _ => .error "offline",
        sinStep := fun _ => 0, rand := fun _ => 0,
        now := { year := 2025, month := 1, day := 1 } }
      [{ period := "2024-01", total := 0 }, { period := "2024-02", total := 10 }]
      "year" "" 0 (by decide) (by decide) (by decide) (by decide)).2⟩


/-! ## Orchestrator lemmas -/

/-- A fixed environment with an absent credential, used by concrete
instantiations. -/
def badKeyEnv : Part003.Env :=
  { apiKey := "", testAPI := .ok (), send := fun _ => .error "offline",
    sinStep := fun _ => 0, rand := fun _ => 0,
    now := { year := 2025, month := 1, day := 1 } }

theorem createRequestForPeriod_set_timePeriod (request : ForecastRequest) (x tp : String) :
    createRequestForPeriod { request with timePeriod := x } tp =
      createRequestForPeriod request tp := rfl

theorem buildForecastPromptForPeriod_set_timePeriod (request : ForecastRequest) (x tp : String) :
    Part003.buildForecastPromptForPeriod { request with timePeriod := x } tp =
      Part003.buildForecastPromptForPeriod request tp := rfl

theorem generateSimpleForecast_set_timePeriod (env : Part003.Env) (request : ForecastRequest)
    (x tp : String) :
    Part003.generateSimpleForecast env (createRequestForPeriod { request with timePeriod := x } tp) =
      Part003.generateSimpleForecast env (createRequestForPeriod request tp) := rfl

theorem part003_gffp_set_timePeriod (env : Part003.Env) (request : ForecastRequest)
    (x tp : String) :
    Part003.generateForecastForPeriod env { request with timePeriod := x } tp =
      Part003.generateForecastForPeriod env request tp := rfl

theorem internal_gffp_set_timePeriod (env : Part003.Env) (request : ForecastRequest)
    (x tp : String) :
    InternalSvc.generateForecastForPeriod env { request with timePeriod := x } tp =
      InternalSvc.generateForecastForPeriod env request tp := rfl

/-- The part_003 degradation chain returns a `nil` error on every path. -/
theorem part003_gffp_never_errors (env : Part003.Env) (request : ForecastRequest)
    (tp : String) :
    ∃ pts raw, Part003.generateForecastForPeriod env request tp = .ok (pts, raw) := by
  simp only [Part003.generateForecastForPeriod]
  repeat' split
  all_goals exact ⟨_, _, rfl⟩

/-! ## Claim C9 — empty `TimePeriod` defaults to `"month"` -/

/-- C9: with a non-empty series and an omitted (empty) `TimePeriod`, both
handler variants behave exactly as if `"month"` had been requested, and the
part_003 handler returns a successful result whose `TimePeriod` is
`"month"`. -/
theorem empty_timePeriod_defaults_to_month (env : Part003.Env) (request : ForecastRequest)
    (hne : request.timeSeriesData ≠ []) (hempty : request.timePeriod = "") :
    Part003.GenerateSalesForecast env request =
      Part003.GenerateSalesForecast env { request with timePeriod := "month" } ∧
    (∃ r, Part003.GenerateSalesForecast env request = .ok r ∧ r.timePeriod = "month") ∧
    InternalSvc.GenerateSalesForecast env request =
      InternalSvc.GenerateSalesForecast env { request with timePeriod := "month" } := by
  have hlen : ¬ request.timeSeriesData.length = 0 := by
    simpa [List.length_eq_zero] using hne
  refine ⟨?_, ?_, ?_⟩
  · simp [Part003.GenerateSalesForecast, hlen, hempty, part003_gffp_set_timePeriod,
      generateSimpleForecast_set_timePeriod]
  · obtain ⟨pts, raw, hok⟩ := part003_gffp_never_errors env request "month"
    refine ⟨{ forecast := pts, timePeriod := "month",
              message := "Forecast generated successfully", rawResponse := raw }, ?_, rfl⟩
    simp [Part003.GenerateSalesForecast, hlen, hempty, hok]
  · simp [InternalSvc.GenerateSalesForecast, hlen, hempty, internal_gffp_set_timePeriod]

/-- Witness for C9 at a concrete environment and request. -/
theorem empty_timePeriod_defaults_to_month_witness :
    ∃ r, Part003.GenerateSalesForecast badKeyEnv
        { timeSeriesData := [{ period := "2024-01", total := 100 }],
          timePeriod := "", periodsToForecast := 0 } = .ok r ∧ r.timePeriod = "month" :=
  (empty_timePeriod_defaults_to_month badKeyEnv
    { timeSeriesData := [{ period := "2024-01", total := 100 }],
      timePeriod := "", periodsToForecast := 0 }
    (by decide) rfl).2.1

/-! ## Claim C1 — invalid credential: part_003 falls back, internal errors -/

/-- C1 (amended): with a non-empty series and an absent, too-short, or
badly-prefixed credential, the part_003 orchestrator returns a successful
result whose raw diagnostic is one of the three fallback reasons and whose
forecast is exactly `generateSimpleForecast` on the same series, granularity
and randomness. -/
theorem invalid_credential_part003_falls_back (env : Part003.Env) (request : ForecastRequest)
    (hne : request.timeSeriesData ≠ [])
    (hbad : env.apiKey = "" ∨ env.apiKey.length < 10 ∨ env.apiKey.take 3 ≠ "sk-") :
    ∃ reason,
      (reason = "Simple forecast generated (no API key)" ∨
       reason = "Simple forecast generated (invalid API key)" ∨
       reason = "Simple forecast generated (invalid API key format)") ∧
      Part003.GenerateSalesForecast env request = .ok
        { forecast := Part003.generateSimpleForecast env (createRequestForPeriod request
            (if request.timePeriod = "" then "month" else request.timePeriod))
          timePeriod := if request.timePeriod = "" then "month" else request.timePeriod
          message := "Forecast generated successfully"
          rawResponse := reason } := by
  have hlen : ¬ request.timeSeriesData.length = 0 := by
    simpa [List.length_eq_zero] using hne
  by_cases h1 : env.apiKey = ""
  · exact ⟨_, Or.inl rfl, by
      simp [Part003.GenerateSalesForecast, Part003.generateForecastForPeriod, hlen, h1]⟩
  · by_cases h2 : env.apiKey.length < 10
    · exact ⟨_, Or.inr (Or.inl rfl), by
        simp [Part003.GenerateSalesForecast, Part003.generateForecastForPeriod, hlen, h1, h2]⟩
    · have h3 : env.apiKey.take 3 ≠ "sk-" := by tauto
      exact ⟨_, Or.inr (Or.inr rfl), by
        simp [Part003.GenerateSalesForecast, Part003.generateForecastForPeriod, hlen, h1, h2, h3]⟩

/-- Witness for C1's amended theorem at a concrete environment and request. -/
theorem invalid_credential_part003_falls_back_witness :
    ∃ reason,
      (reason = "Simple forecast generated (no API key)" ∨
       reason = "Simple forecast generated (invalid API key)" ∨
       reason = "Simple forecast generated (invalid API key format)") ∧
      Part003.GenerateSalesForecast badKeyEnv
        { timeSeriesData := [{ period := "2024-01", total := 100 }],
          timePeriod := "month", periodsToForecast := 0 } = .ok
        { forecast := Part003.generateSimpleForecast badKeyEnv (createRequestForPeriod
            { timeSeriesData := [{ period := "2024-01", total := 100 }],
              timePeriod := "month", periodsToForecast := 0 }
            (if ({ timeSeriesData := [{ period := "2024-01", total := 100 }],
                   timePeriod := "month", periodsToForecast := 0 } : ForecastRequest).timePeriod = ""
             then "month" else "month"))
          timePeriod := if ({ timeSeriesData := [{ period := "2024-01", total := 100 }],
                              timePeriod := "month", periodsToForecast := 0 } : ForecastRequest).timePeriod = ""
                        then "month" else "month"
          message := "Forecast generated successfully"
          rawResponse := reason } :=
  invalid_credential_part003_falls_back badKeyEnv
    { timeSeriesData := [{ period := "2024-01", total := 100 }],
      timePeriod := "month", periodsToForecast := 0 }
    (by decide) (Or.inl rfl)

/-- C1's counterexample: the claim as stated ("the orchestrator never
returns an error to the caller") fails on the repository's
`internal/services` variant — with an absent credential and a non-empty
series its handler answers an HTTP 500 error. -/
theorem invalid_credential_internal_errors :
    ([{ period := "2024-01", total := 100 }] : List TimeSeriesPoint) ≠ [] ∧
    InternalSvc.GenerateSalesForecast badKeyEnv
      { timeSeriesData := [{ period := "2024-01", total := 100 }],
        timePeriod := "month", periodsToForecast := 0 } =
      .error (500, "Failed to generate forecast") := by
  refine ⟨by decide, ?_⟩
  rfl

/-! ## Claim C2 — result sizes of the degradation chain -/

/-- C2 (amended): an entirely empty series is rejected with HTTP 400 (not a
successful empty result); the fallback estimator yields exactly
`getForecastPeriods` points (at least one) when the series *filtered to the
last 12 months* still has at least 2 points, and an empty list when the
filtered series has fewer than 2 points. -/
theorem forecast_result_sizes (env : Part003.Env) (request : ForecastRequest) (tp : String) :
    (request.timeSeriesData = [] →
      Part003.GenerateSalesForecast env request = .error (400, "No time series data provided")) ∧
    (2 ≤ (filterToLast12Months request.timeSeriesData).length →
      (Part003.generateSimpleForecast env (createRequestForPeriod request tp)).length =
          getForecastPeriods tp ∧ 1 ≤ getForecastPeriods tp) ∧
    ((filterToLast12Months request.timeSeriesData).length < 2 →
      Part003.generateSimpleForecast env (createRequestForPeriod request tp) = []) := by
  refine ⟨?_, ?_, ?_⟩
  · intro h
    simp [Part003.GenerateSalesForecast, h]
  · intro h
    constructor
    · exact Part003.generateSimpleForecast_length env _ h
    · simp only [getForecastPeriods]
      repeat' split
      all_goals omega
  · intro h
    exact Part003.generateSimpleForecast_short env _ h

/-- Witness for C2's amended theorem at a concrete environment, request and
granularity. -/
theorem forecast_result_sizes_witness :
    2 ≤ (filterToLast12Months [{ period := "2024-01", total := 0 },
                               { period := "2024-02", total := 10 }]).length ∧
    (Part003.generateSimpleForecast badKeyEnv (createRequestForPeriod
        { timeSeriesData := [{ period := "2024-01", total := 0 },
                             { period := "2024-02", total := 10 }],
          timePeriod := "month", periodsToForecast := 0 } "month")).length =
      getForecastPeriods "month" :=
  ⟨by decide,
   ((forecast_result_sizes badKeyEnv
      { timeSeriesData := [{ period := "2024-01", total := 0 },
                           { period := "2024-02", total := 10 }],
        timePeriod := "month", periodsToForecast := 0 } "month").2.1 (by decide)).1⟩

/-- C2's counterexample: a series with 2 points whose filtered form has only
1 point makes the degradation chain return a successful but *empty* forecast
(refuting "at least one forecast point for every size-2 series"), and an
empty series is answered with HTTP 400, not an empty successful result. -/
theorem forecast_result_sizes_counterexample :
    ([{ period := "2020-01", total := 5 }, { period := "2024-01", total := 7 }] :
        List TimeSeriesPoint).length = 2 ∧
    Part003.GenerateSalesForecast badKeyEnv
      { timeSeriesData := [{ period := "2020-01", total := 5 },
                           { period := "2024-01", total := 7 }],
        timePeriod := "month", periodsToForecast := 0 } =
      .ok { forecast := [], timePeriod := "month",
            message := "Forecast generated successfully",
            rawResponse := "Simple forecast generated (no API key)" } ∧
    Part003.GenerateSalesForecast badKeyEnv
      { timeSeriesData := [], timePeriod := "month", periodsToForecast := 0 } =
      .error (400, "No time series data provided") := by
  refine ⟨by decide, by rfl, by rfl⟩

/-! ## Claim C4 — nonnegativity of delivered forecast values -/

theorem seasonalForecastPoints_nonneg (env : Part003.Env) (tp lastP : String) (n : Nat)
    (avg trend : ℚ) :
    ∀ p ∈ Part003.seasonalForecastPoints env tp lastP n avg trend, 0 ≤ p.total := by
  intro p hp
  simp only [Part003.seasonalForecastPoints, List.mem_map, List.mem_range] at hp
  obtain ⟨i, -, rfl⟩ := hp
  dsimp only
  split
  · exact le_refl 0
  · exact le_of_not_lt (by assumption)

theorem linearForecastPoints_nonneg (env : Part003.Env) (tp lastP : String) (n : Nat)
    (avg trend : ℚ) :
    ∀ p ∈ Part003.linearForecastPoints env tp lastP n avg trend, 0 ≤ p.total := by
  intro p hp
  simp only [Part003.linearForecastPoints, List.mem_map, List.mem_range] at hp
  obtain ⟨i, -, rfl⟩ := hp
  dsimp only
  split
  · exact le_refl 0
  · exact le_of_not_lt (by assumption)

/-- The estimator output is empty, a seasonal-branch list, or a plain-linear
list. -/
theorem generateSimpleForecast_shape (env : Part003.Env) (request : ForecastRequest) :
    Part003.generateSimpleForecast env request = [] ∨
    (∃ a t, Part003.generateSimpleForecast env request =
      Part003.seasonalForecastPoints env request.timePeriod
        ((filterToLast12Months request.timeSeriesData).getLastD
          { period := "", total := 0 }).period
        request.periodsToForecast a t) ∨
    (∃ a t, Part003.generateSimpleForecast env request =
      Part003.linearForecastPoints env request.timePeriod
        ((filterToLast12Months request.timeSeriesData).getLastD
          { period := "", total := 0 }).period
        request.periodsToForecast a t) := by
  by_cases hshort : (filterToLast12Months request.timeSeriesData).length < 2
  · exact Or.inl (Part003.generateSimpleForecast_short env request hshort)
  · right
    simp only [Part003.generateSimpleForecast]
    rw [if_neg hshort]
    split
    · split
      · exact Or.inl ⟨_, _, rfl⟩
      · exact Or.inr ⟨_, _, rfl⟩
    · split
      · exact Or.inl ⟨_, _, rfl⟩
      · exact Or.inr ⟨_, _, rfl⟩

/-- C4 (amended): every point produced by the fallback Trend Estimator is
clamped to a nonnegative value. (Provider-parsed points are *not* clamped —
see the counterexample.) -/
theorem fallback_forecast_nonneg (env : Part003.Env) (request : ForecastRequest) :
    ∀ p ∈ Part003.generateSimpleForecast env request, 0 ≤ p.total := by
  intro p hp
  rcases generateSimpleForecast_shape env request with h | ⟨a, t, h⟩ | ⟨a, t, h⟩
  · rw [h] at hp
    simp at hp
  · rw [h] at hp
    exact seasonalForecastPoints_nonneg env _ _ _ a t p hp
  · rw [h] at hp
    exact linearForecastPoints_nonneg env _ _ _ a t p hp


/-- Witness for C4's amended theorem: the head of a concrete fallback
forecast is nonnegative. -/
theorem fallback_forecast_nonneg_witness :
    0 ≤ ((Part003.generateSimpleForecast badKeyEnv
        { timeSeriesData := [{ period := "2024-01", total := 0 },
                             { period := "2024-02", total := 10 }],
          timePeriod := "month", periodsToForecast := 1 }).headD
        { period := "", total := 0 }).total := by
  have hlen := Part003.generateSimpleForecast_length badKeyEnv
    { timeSeriesData := [{ period := "2024-01", total := 0 },
                         { period := "2024-02", total := 10 }],
      timePeriod := "month", periodsToForecast := 1 } (by decide)
  cases hl : Part003.generateSimpleForecast badKeyEnv
      { timeSeriesData := [{ period := "2024-01", total := 0 },
                           { period := "2024-02", total := 10 }],
        timePeriod := "month", periodsToForecast := 1 } with
  | nil => rw [hl] at hlen; simp at hlen
  | cons q t =>
    simp only [List.headD]
    exact fallback_forecast_nonneg badKeyEnv
      { timeSeriesData := [{ period := "2024-01", total := 0 },
                           { period := "2024-02", total := 10 }],
        timePeriod := "month", periodsToForecast := 1 } q
      (by rw [hl]; exact List.mem_cons_self q t)

/-- An environment with a well-formed credential whose provider replies with
a negative forecast value. -/
def negProviderEnv : Part003.Env :=
  { apiKey := "sk-aaaaaaaaaa", testAPI := .ok (),
    send := fun _ => .ok
      { choices :=
          [{ message :=
              { role := "assistant",
                content := "[\x7b\"period\":\"2024-02\",\"total\":-500\x7d]" } }] },
    sinStep := fun _ => 0, rand := fun _ => 0,
    now := { year := 2025, month := 1, day := 1 } }

/-- C4's counterexample: a provider-parsed point with a negative value is
delivered to the caller unclamped — the parser performs no clamping. -/
theorem provider_points_not_clamped :
    Part003.GenerateSalesForecast negProviderEnv
      { timeSeriesData := [{ period := "2024-01", total := 100 }],
        timePeriod := "month", periodsToForecast := 0 } =
      .ok { forecast := [{ period := "2024-02", total := -500 }], timePeriod := "month",
            message := "Forecast generated successfully",
            rawResponse := "[\x7b\"period\":\"2024-02\",\"total\":-500\x7d]" } ∧
    (-500 : ℚ) < 0 := by
  constructor
  · have h0 : Part003.GenerateSalesForecast negProviderEnv
        { timeSeriesData := [{ period := "2024-01", total := 100 }],
          timePeriod := "month", periodsToForecast := 0 } =
        .ok
          { forecast :=
              [{ period := "2024-02",
                 total := -((digitsToNat ['5', '0', '0'] : ℚ) / 10 ^ (0 : Nat)) *
                   10 ^ (0 : Int) }],
            timePeriod := "month",
            message := "Forecast generated successfully",
            rawResponse := "[\x7b\"period\":\"2024-02\",\"total\":-500\x7d]" } := rfl
    rw [h0, show digitsToNat ['5', '0', '0'] = 500 from by decide]
    norm_num
  · norm_num

/-! ## Claim C5 — branch selection in the Trend Estimator -/

/-- With a filtered length of 2 or 3 the recent window is the whole series:
the older head is empty and the plain-linear branch runs, with
`trend = (avgRecent - values[0]) / (len - 1)`. -/
theorem generateSimpleForecast_linear_of_le3 (env : Part003.Env) (request : ForecastRequest)
    (h2 : 2 ≤ (filterToLast12Months request.timeSeriesData).length)
    (h3 : (filterToLast12Months request.timeSeriesData).length ≤ 3) :
    Part003.generateSimpleForecast env request =
      Part003.linearForecastPoints env request.timePeriod
        ((filterToLast12Months request.timeSeriesData).getLastD
          { period := "", total := 0 }).period
        request.periodsToForecast
        (((filterToLast12Months request.timeSeriesData).map (·.total)).sum /
          ((filterToLast12Months request.timeSeriesData).length : ℚ))
        ((((filterToLast12Months request.timeSeriesData).map (·.total)).sum /
            ((filterToLast12Months request.timeSeriesData).length : ℚ) -
          ((filterToLast12Months request.timeSeriesData).map (·.total)).headD 0) /
          (((filterToLast12Months request.timeSeriesData).length : ℚ) - 1)) := by
  simp only [Part003.generateSimpleForecast]
  rw [if_neg (by omega)]
  have hw : (if ((filterToLast12Months request.timeSeriesData).map (·.total)).length < 3
      then ((filterToLast12Months request.timeSeriesData).map (·.total)).length else 3) =
      ((filterToLast12Months request.timeSeriesData).map (·.total)).length := by
    simp only [List.length_map]
    split <;> omega
  rw [hw, Nat.sub_self]
  simp only [List.drop_zero, List.take_zero, List.length_nil, List.length_map,
    lt_self_iff_false, if_false]

/-- With a filtered length of at least 4 the older head is non-empty and the
trend-plus-seasonal-plus-random branch runs. -/
theorem generateSimpleForecast_seasonal_of_ge4 (env : Part003.Env) (request : ForecastRequest)
    (h4 : 4 ≤ (filterToLast12Months request.timeSeriesData).length) :
    ∃ a t, Part003.generateSimpleForecast env request =
      Part003.seasonalForecastPoints env request.timePeriod
        ((filterToLast12Months request.timeSeriesData).getLastD
          { period := "", total := 0 }).period
        request.periodsToForecast a t := by
  simp only [Part003.generateSimpleForecast]
  rw [if_neg (by omega)]
  have hw : (if ((filterToLast12Months request.timeSeriesData).map (·.total)).length < 3
      then ((filterToLast12Months request.timeSeriesData).map (·.total)).length else 3) = 3 := by
    simp only [List.length_map]
    split <;> omega
  rw [hw, if_pos]
  · exact ⟨_, _, rfl⟩
  · simp only [List.length_take, List.length_map]
    omega

/-- C5 (amended): the Trend Estimator takes the plain linear branch — trend
`(avgRecent - values[0]) / (len - 1)`, no seasonal or random factor — exactly
when the older head (the filtered series minus its recent window of
`min(3, len)` points) is empty, which happens when the filtered series has 2
*or 3* points (not only 2: with 3 points the window is the whole series); with
4 or more points it takes the trend-plus-seasonal-plus-random branch. -/
theorem trend_estimator_branch_selection (env : Part003.Env) (request : ForecastRequest) :
    (2 ≤ (filterToLast12Months request.timeSeriesData).length →
     (filterToLast12Months request.timeSeriesData).length ≤ 3 →
      Part003.generateSimpleForecast env request =
        Part003.linearForecastPoints env request.timePeriod
          ((filterToLast12Months request.timeSeriesData).getLastD
            { period := "", total := 0 }).period
          request.periodsToForecast
          (((filterToLast12Months request.timeSeriesData).map (·.total)).sum /
            ((filterToLast12Months request.timeSeriesData).length : ℚ))
          ((((filterToLast12Months request.timeSeriesData).map (·.total)).sum /
              ((filterToLast12Months request.timeSeriesData).length : ℚ) -
            ((filterToLast12Months request.timeSeriesData).map (·.total)).headD 0) /
            (((filterToLast12Months request.timeSeriesData).length : ℚ) - 1))) ∧
    (4 ≤ (filterToLast12Months request.timeSeriesData).length →
      ∃ a t, Part003.generateSimpleForecast env request =
        Part003.seasonalForecastPoints env request.timePeriod
          ((filterToLast12Months request.timeSeriesData).getLastD
            { period := "", total := 0 }).period
          request.periodsToForecast a t) :=
  ⟨fun h2 h3 => generateSimpleForecast_linear_of_le3 env request h2 h3,
   fun h4 => generateSimpleForecast_seasonal_of_ge4 env request h4⟩


/-- Witness for C5's amended theorem: a concrete 2-point series goes through
the plain-linear branch. -/
theorem trend_estimator_branch_selection_witness :
    Part003.generateSimpleForecast badKeyEnv
      { timeSeriesData := [{ period := "2024-01", total := 0 },
                           { period := "2024-02", total := 10 }],
        timePeriod := "month", periodsToForecast := 1 } =
      Part003.linearForecastPoints badKeyEnv "month"
        ((filterToLast12Months [{ period := "2024-01", total := 0 },
                                { period := "2024-02", total := 10 }]).getLastD
          { period := "", total := 0 }).period 1
        (((filterToLast12Months [{ period := "2024-01", total := 0 },
                                 { period := "2024-02", total := 10 }]).map (·.total)).sum /
          ((filterToLast12Months [{ period := "2024-01", total := 0 },
                                  { period := "2024-02", total := 10 }]).length : ℚ))
        ((((filterToLast12Months [{ period := "2024-01", total := 0 },
                                  { period := "2024-02", total := 10 }]).map (·.total)).sum /
            ((filterToLast12Months [{ period := "2024-01", total := 0 },
                                    { period := "2024-02", total := 10 }]).length : ℚ) -
          ((filterToLast12Months [{ period := "2024-01", total := 0 },
                                  { period := "2024-02", total := 10 }]).map (·.total)).headD 0) /
          (((filterToLast12Months [{ period := "2024-01", total := 0 },
                                   { period := "2024-02", total := 10 }]).length : ℚ) - 1)) :=
  (trend_estimator_branch_selection badKeyEnv
    { timeSeriesData := [{ period := "2024-01", total := 0 },
                         { period := "2024-02", total := 10 }],
      timePeriod := "month", periodsToForecast := 1 }).1 (by decide) (by decide)

/-- C5's counterexample: a 3-point filtered series (not "exactly 2 points")
also has an empty older head and goes through the plain-linear branch — its
single forecast value is the unperturbed `avgRecent + trend`, 15, whereas the
trend-plus-seasonal-plus-random branch at the same average and trend would
produce `15 * 1 * 0.95 = 57/4 ≠ 15` under this environment's noise draws. -/
theorem trend_estimator_three_point_linear :
    (filterToLast12Months
      [{ period := "2024-01", total := 0 }, { period := "2024-02", total := 0 },
       { period := "2024-03", total := 30 }]).length = 3 ∧
    (filterToLast12Months
      [{ period := "2024-01", total := 0 }, { period := "2024-02", total := 0 },
       { period := "2024-03", total := 30 }]).take
      ((filterToLast12Months
        [{ period := "2024-01", total := 0 }, { period := "2024-02", total := 0 },
         { period := "2024-03", total := 30 }]).length -
        min 3 (filterToLast12Months
          [{ period := "2024-01", total := 0 }, { period := "2024-02", total := 0 },
           { period := "2024-03", total := 30 }]).length) = [] ∧
    Part003.generateSimpleForecast badKeyEnv
      { timeSeriesData :=
          [{ period := "2024-01", total := 0 }, { period := "2024-02", total := 0 },
           { period := "2024-03", total := 30 }],
        timePeriod := "month", periodsToForecast := 1 } =
      [{ period := "2024-04", total := 15 }] ∧
    Part003.seasonalForecastPoints badKeyEnv "month" "2024-03" 1 10 5 =
      [{ period := "2024-04", total := 57/4 }] ∧
    (57/4 : ℚ) ≠ 15 := by
  refine ⟨by decide, by decide, ?_, ?_, by norm_num⟩
  · have h := generateSimpleForecast_linear_of_le3 badKeyEnv
      { timeSeriesData :=
          [{ period := "2024-01", total := 0 }, { period := "2024-02", total := 0 },
           { period := "2024-03", total := 30 }],
        timePeriod := "month", periodsToForecast := 1 } (by decide) (by decide)
    rw [h]
    have hf : filterToLast12Months
        [{ period := "2024-01", total := 0 }, { period := "2024-02", total := 0 },
         { period := "2024-03", total := 30 }] =
        [{ period := "2024-01", total := 0 }, { period := "2024-02", total := 0 },
         { period := "2024-03", total := 30 }] := by decide
    rw [hf]
    have hlabel : generateNextPeriod badKeyEnv.now "2024-03" "month" (0 + 1) = "2024-04" := by
      decide
    simp [Part003.linearForecastPoints, List.range_succ, hlabel]
    norm_num
  · have hlabel : generateNextPeriod { year := 2025, month := 1, day := 1 }
        "2024-03" "month" 1 = "2024-04" := by decide
    simp [Part003.seasonalForecastPoints, List.range_succ, hlabel, badKeyEnv]
    norm_num


/-! ## Claim C7 — bracket extraction and the concrete parse example -/

theorem getD_take (l : List Char) (n m : Nat) (d : Char) (h : m < n) :
    (l.take n).getD m d = l.getD m d := by
  simp [List.getD_eq_getElem?_getD, List.getElem?_take_of_lt h]

theorem findIdx?_eq_some_of (p : Char → Bool) :
    ∀ (l : List Char) (i : Nat), i < l.length → p (l.getD i ' ') = true →
      (∀ j, j < i → p (l.getD j ' ') = false) → l.findIdx? p = some i := by
  intro l
  induction l with
  | nil => intro i hi _ _; simp at hi
  | cons a t ih =>
    intro i hi hp hmin
    rw [List.findIdx?_cons]
    cases i with
    | zero =>
      rw [List.getD_cons_zero] at hp
      rw [if_pos hp]
    | succ n =>
      have ha : p a = false := by
        have := hmin 0 (Nat.succ_pos n)
        rwa [List.getD_cons_zero] at this
      rw [if_neg (by simp [ha]), List.findIdx?_succ]
      have ht : t.findIdx? p = some n := by
        refine ih n (by simpa using hi) ?_ ?_
        · rwa [List.getD_cons_succ] at hp
        · intro j hj
          have := hmin (j + 1) (by omega)
          rwa [List.getD_cons_succ] at this
      rw [ht]
      rfl

/-- The upward scan finds exactly the first `[` among positions
`0 .. len-2`. -/
theorem scanOpen_spec (cs : List Char) (i0 : Nat) (h0 : i0 < cs.length - 1)
    (hc : cs.getD i0 ' ' = '[') (hfirst : ∀ j, j < i0 → cs.getD j ' ' ≠ '[') :
    scanOpen cs = i0 := by
  unfold scanOpen
  have h := findIdx?_eq_some_of (fun c => c = '[') (cs.take (cs.length - 1)) i0
    (by simp only [List.length_take]; omega)
    (by rw [getD_take cs _ _ _ h0]; simp only [decide_eq_true_eq]; exact hc)
    (by
      intro j hj
      rw [getD_take cs _ _ _ (by omega)]
      simp only [decide_eq_false_iff_not]
      exact hfirst j hj)
  rw [h]

/-- The downward scan starting at `i` finds exactly the last `]` in
`(start, i]`. -/
theorem scanCloseAux_spec (cs : List Char) (start i1 : Nat) :
    ∀ i, start < i1 → i1 ≤ i → cs.getD i1 ' ' = ']' →
      (∀ j, i1 < j → j ≤ i → cs.getD j ' ' ≠ ']') →
      scanCloseAux cs start i = some i1 := by
  intro i
  induction i with
  | zero => intro h1 h2 _ _; omega
  | succ n ih =>
    intro h1 h2 hc hno
    simp only [scanCloseAux]
    rw [if_neg (by omega)]
    by_cases he : cs.getD (n + 1) ' ' = ']'
    · have hi1 : i1 = n + 1 := by
        by_contra hne
        exact (hno (n + 1) (by omega) (le_refl _)) he
      rw [if_pos he, hi1]
    · rw [if_neg he]
      have hle : i1 ≤ n := by
        rcases Nat.lt_or_ge i1 (n + 1) with h | h
        · omega
        · exfalso
          have : i1 = n + 1 := by omega
          rw [this] at hc
          exact he hc
      exact ih h1 hle hc (fun j hj1 hj2 => hno j hj1 (by omega))

/-- The candidate's (exclusive) end is one past the last `]` above `start`. -/
theorem scanClose_spec (cs : List Char) (i0 i1 : Nat) (h01 : i0 < i1)
    (h1 : i1 < cs.length) (hclose : cs.getD i1 ' ' = ']')
    (hlast : ∀ j, j < cs.length → i1 < j → cs.getD j ' ' ≠ ']') :
    scanClose cs i0 = i1 + 1 := by
  unfold scanClose
  rw [scanCloseAux_spec cs i0 i1 (cs.length - 1) h01 (by omega) hclose
    (fun j hj1 hj2 => hlast j (by omega) hj1)]

/-- The raw provider text of the spec's concrete parser example. -/
def exampleRawContent : String :=
  "Here you go: [\x7b\"period\":\"2024-02\",\"total\":500.0\x7d] thanks"

/-- A provider response wrapping the concrete example text. -/
def exampleProviderResponse : ChatGPTResponse :=
  { choices :=
      [{ message :=
          { role := "assistant",
            content := exampleRawContent } }] }

/-- C7: whenever the raw content holds a forward `[` … `]` pair, the parser
takes exactly the substring from the first `[` to the last `]` (inclusive) as
the candidate payload; and on the concrete prose-wrapped input it extracts
exactly the single point `("2024-02", 500)`. -/
theorem parser_extracts_bracketed_payload :
    (∀ (cs : List Char) (i0 i1 : Nat), i0 < i1 → i1 < cs.length →
      cs.getD i0 ' ' = '[' → (∀ j, j < i0 → cs.getD j ' ' ≠ '[') →
      cs.getD i1 ' ' = ']' → (∀ j, j < cs.length → i1 < j → cs.getD j ' ' ≠ ']') →
      scanOpen cs = i0 ∧ scanClose cs i0 = i1 + 1) ∧
    parseSinglePeriodChatGPTResponse exampleProviderResponse =
      .ok ([{ period := "2024-02", total := 500 }], exampleRawContent) := by
  constructor
  · intro cs i0 i1 h01 h1 hopen hfirst hclose hlast
    have hop := scanOpen_spec cs i0 (by omega) hopen hfirst
    exact ⟨hop, scanClose_spec cs i0 i1 h01 h1 hclose hlast⟩
  · have h0 : parseSinglePeriodChatGPTResponse exampleProviderResponse =
        .ok ([{ period := "2024-02",
                total := (digitsToNat ['5', '0', '0', '0'] : ℚ) / 10 ^ (1 : Nat) *
                  10 ^ (0 : Int) }],
          exampleRawContent) := rfl
    rw [h0, show digitsToNat ['5', '0', '0', '0'] = 5000 from by decide]
    norm_num

/-- Witness for C7's bracket-extraction part at a concrete input. -/
theorem parser_extracts_bracketed_payload_witness :
    scanOpen "x[1]y".data = 1 ∧ scanClose "x[1]y".data 1 = 4 :=
  parser_extracts_bracketed_payload.1 "x[1]y".data 1 3 (by decide) (by decide) (by decide)
    (by decide) (by decide) (by decide)


/-! ## Digit-string order (for the month-key sort bridge of the bucketer) -/

theorem digitChar_lt_iff : ∀ x < 10, ∀ y < 10,
    (Nat.digitChar x < Nat.digitChar y ↔ x < y) := by decide

theorem digitChar_eq_iff : ∀ x < 10, ∀ y < 10,
    (Nat.digitChar x = Nat.digitChar y ↔ x = y) := by decide

theorem isDigitCh_digitChar : ∀ x < 10, isDigitCh (Nat.digitChar x) = true := by decide

theorem digitVal_digitChar : ∀ x < 10, digitVal (Nat.digitChar x) = (x : Int) := by decide

/-- Numeric value of a digit list, most significant first. -/
def digitsVal (ds : List Nat) : Nat := ds.foldl (fun a d => 10 * a + d) 0

theorem digitsVal_foldl_acc (ds : List Nat) :
    ∀ a : Nat, ds.foldl (fun a d => 10 * a + d) a = a * 10 ^ ds.length + digitsVal ds := by
  induction ds with
  | nil => intro a; simp [digitsVal]
  | cons d t ih =>
    intro a
    simp only [List.foldl_cons, List.length_cons, digitsVal]
    rw [ih (10 * a + d), show 10 * 0 + d = d from by omega, ih d]
    ring

theorem digitsVal_cons (d : Nat) (t : List Nat) :
    digitsVal (d :: t) = d * 10 ^ t.length + digitsVal t := by
  simp only [digitsVal, List.foldl_cons]
  rw [show 10 * 0 + d = d from by omega]
  exact digitsVal_foldl_acc t d

theorem digitsVal_lt (ds : List Nat) (h : ∀ x ∈ ds, x < 10) :
    digitsVal ds < 10 ^ ds.length := by
  induction ds with
  | nil => simp [digitsVal]
  | cons d t ih =>
    rw [digitsVal_cons]
    have hd : d < 10 := h d (List.mem_cons_self d t)
    have ht := ih (fun x hx => h x (List.mem_cons_of_mem d hx))
    have : d * 10 ^ t.length ≤ 9 * 10 ^ t.length := by
      exact Nat.mul_le_mul_right _ (by omega)
    simp only [List.length_cons, pow_succ]
    omega

/-- Code-point order on equal-length digit blocks followed by arbitrary
tails: it is the numeric order of the blocks, with the tails comparing only
on equal blocks. -/
theorem chListLe_digit_blocks :
    ∀ (xs ys : List Nat) (s1 s2 : List Char), xs.length = ys.length →
      (∀ x ∈ xs, x < 10) → (∀ y ∈ ys, y < 10) →
      (App.chListLe (xs.map Nat.digitChar ++ s1) (ys.map Nat.digitChar ++ s2) = true ↔
        (digitsVal xs < digitsVal ys ∨ (xs = ys ∧ App.chListLe s1 s2 = true))) := by
  intro xs
  induction xs with
  | nil =>
    intro ys s1 s2 hlen _ _
    have hys : ys = [] := List.length_eq_zero.mp hlen.symm
    subst hys
    simp [digitsVal]
  | cons x xt ih =>
    intro ys s1 s2 hlen hxd hyd
    match ys, hlen with
    | y :: yt, hlen =>
      have hx : x < 10 := hxd x (List.mem_cons_self x xt)
      have hy : y < 10 := hyd y (List.mem_cons_self y yt)
      have hlen' : xt.length = yt.length := by simpa using hlen
      simp only [List.map_cons, List.cons_append, App.chListLe, List.append_eq]
      rcases Nat.lt_trichotomy x y with hxy | hxy | hxy
      · rw [if_pos ((digitChar_lt_iff x hx y hy).mpr hxy)]
        constructor
        · intro _
          left
          rw [digitsVal_cons, digitsVal_cons, hlen']
          have hvx := digitsVal_lt xt (fun a ha => hxd a (List.mem_cons_of_mem x ha))
          have : x * 10 ^ yt.length + 10 ^ xt.length ≤ y * 10 ^ yt.length := by
            rw [hlen']
            calc x * 10 ^ yt.length + 10 ^ yt.length = (x + 1) * 10 ^ yt.length := by ring
            _ ≤ y * 10 ^ yt.length := Nat.mul_le_mul_right _ (by omega)
          omega
        · intro _; rfl
      · subst hxy
        rw [if_neg (by simp), if_neg (by simp)]
        rw [ih yt s1 s2 hlen' (fun a ha => hxd a (List.mem_cons_of_mem x ha))
          (fun a ha => hyd a (List.mem_cons_of_mem x ha))]
        constructor
        · rintro (hv | ⟨heq, hs⟩)
          · left
            rw [digitsVal_cons, digitsVal_cons, hlen']
            omega
          · right
            exact ⟨by rw [heq], hs⟩
        · rintro (hv | ⟨heq, hs⟩)
          · left
            rw [digitsVal_cons, digitsVal_cons, hlen'] at hv
            omega
          · right
            simp only [List.cons.injEq, true_and] at heq
            exact ⟨heq, hs⟩
      · rw [if_neg (by rw [digitChar_lt_iff x hx y hy]; omega),
          if_pos ((digitChar_lt_iff y hy x hx).mpr hxy)]
        constructor
        · intro h; exact absurd h (by simp)
        · rintro (hv | ⟨heq, -⟩)
          · exfalso
            rw [digitsVal_cons, digitsVal_cons, hlen'] at hv
            have hvy := digitsVal_lt yt (fun a ha => hyd a (List.mem_cons_of_mem y ha))
            have : y * 10 ^ yt.length + 10 ^ yt.length ≤ x * 10 ^ yt.length := by
              calc y * 10 ^ yt.length + 10 ^ yt.length = (y + 1) * 10 ^ yt.length := by ring
              _ ≤ x * 10 ^ yt.length := Nat.mul_le_mul_right _ (by omega)
            omega
          · exfalso
            injection heq with h1 h2
            omega


/-! ## Month bucket keys: shape, parse round-trip, and order -/

theorem natDigitsRev_four (y : Nat) (h1 : 1000 ≤ y) (h2 : y ≤ 9999) :
    natDigitsRev y = [y % 10, y / 10 % 10, y / 100 % 10, y / 1000] := by
  rw [natDigitsRev_eq, if_neg (by omega), natDigitsRev_eq, if_neg (by omega),
    natDigitsRev_eq, if_neg (by omega), natDigitsRev_eq, if_pos (by omega)]
  rw [show y / 10 / 10 = y / 100 from by omega]
  rw [show y / 100 / 10 = y / 1000 from by omega]

theorem decimalStr_four (y : Nat) (h1 : 1000 ≤ y) (h2 : y ≤ 9999) :
    (decimalStr y).data =
      [Nat.digitChar (y / 1000), Nat.digitChar (y / 100 % 10),
       Nat.digitChar (y / 10 % 10), Nat.digitChar (y % 10)] := by
  simp [decimalStr, natDigitsRev_four y h1 h2]

/-- Character content of a month bucket key for 4-digit years. -/
theorem monthKey_data (d : Date) (h1 : 1000 ≤ d.year.toNat) (h2 : d.year.toNat ≤ 9999) :
    (App.periodKeyOf .month d).data =
      [Nat.digitChar (d.year.toNat / 1000), Nat.digitChar (d.year.toNat / 100 % 10),
       Nat.digitChar (d.year.toNat / 10 % 10), Nat.digitChar (d.year.toNat % 10), '-',
       Nat.digitChar (d.month.toNat / 10), Nat.digitChar (d.month.toNat % 10)] := by
  show (decimalStr d.year.toNat ++ "-" ++ pad2 d.month.toNat).data = _
  rw [String.data_append, String.data_append, decimalStr_four _ h1 h2]
  rfl

theorem digitsVal_four (y : Nat) (h : y ≤ 9999) :
    digitsVal [y / 1000, y / 100 % 10, y / 10 % 10, y % 10] = y := by
  simp only [digitsVal, List.foldl]
  omega

theorem digitsVal_two (m : Nat) : digitsVal [m / 10, m % 10] = m := by
  simp only [digitsVal, List.foldl]
  omega

/-- Code-point order of month keys is the chronological order of
`(year, month)` (years 4-digit, months 1..12). -/
theorem monthKey_chListLe_iff (d1 d2 : Date)
    (hy1 : 1000 ≤ d1.year.toNat) (hy2 : d1.year.toNat ≤ 9999)
    (hy3 : 1000 ≤ d2.year.toNat) (hy4 : d2.year.toNat ≤ 9999)
    (hm1 : 1 ≤ d1.month.toNat) (hm2 : d1.month.toNat ≤ 12)
    (hm3 : 1 ≤ d2.month.toNat) (hm4 : d2.month.toNat ≤ 12) :
    (App.chListLe (App.periodKeyOf .month d1).data (App.periodKeyOf .month d2).data = true) ↔
      12 * d1.year.toNat + d1.month.toNat ≤ 12 * d2.year.toNat + d2.month.toNat := by
  rw [monthKey_data d1 hy1 hy2, monthKey_data d2 hy3 hy4]
  have hyblock := chListLe_digit_blocks
    [d1.year.toNat / 1000, d1.year.toNat / 100 % 10, d1.year.toNat / 10 % 10, d1.year.toNat % 10]
    [d2.year.toNat / 1000, d2.year.toNat / 100 % 10, d2.year.toNat / 10 % 10, d2.year.toNat % 10]
    ['-', Nat.digitChar (d1.month.toNat / 10), Nat.digitChar (d1.month.toNat % 10)]
    ['-', Nat.digitChar (d2.month.toNat / 10), Nat.digitChar (d2.month.toNat % 10)]
    rfl (by intro x hx; fin_cases hx <;> omega) (by intro x hx; fin_cases hx <;> omega)
  simp only [List.map_cons, List.map_nil, List.cons_append, List.nil_append] at hyblock
  rw [hyblock]
  have hmid : App.chListLe
      ['-', Nat.digitChar (d1.month.toNat / 10), Nat.digitChar (d1.month.toNat % 10)]
      ['-', Nat.digitChar (d2.month.toNat / 10), Nat.digitChar (d2.month.toNat % 10)] =
      App.chListLe
        [Nat.digitChar (d1.month.toNat / 10), Nat.digitChar (d1.month.toNat % 10)]
        [Nat.digitChar (d2.month.toNat / 10), Nat.digitChar (d2.month.toNat % 10)] := by
    simp [App.chListLe]
  have hmblock := chListLe_digit_blocks
    [d1.month.toNat / 10, d1.month.toNat % 10] [d2.month.toNat / 10, d2.month.toNat % 10]
    [] [] rfl (by intro x hx; fin_cases hx <;> omega) (by intro x hx; fin_cases hx <;> omega)
  simp only [List.map_cons, List.map_nil, List.cons_append, List.nil_append,
    List.append_nil] at hmblock
  rw [hmid, hmblock]
  rw [digitsVal_four _ hy2, digitsVal_four _ hy4, digitsVal_two, digitsVal_two]
  constructor
  · rintro (hlt | ⟨heqy, hmm⟩)
    · omega
    · have hy : d1.year.toNat = d2.year.toNat := by
        have := congrArg digitsVal heqy
        rwa [digitsVal_four _ hy2, digitsVal_four _ hy4] at this
      rcases hmm with hmlt | ⟨heqm, -⟩
      · omega
      · have hm : d1.month.toNat = d2.month.toNat := by
          have := congrArg digitsVal heqm
          rwa [digitsVal_two, digitsVal_two] at this
        omega
  · intro hle
    rcases Nat.lt_trichotomy d1.year.toNat d2.year.toNat with hy | hy | hy
    · left; omega
    · right
      refine ⟨by rw [hy], ?_⟩
      rcases Nat.lt_or_ge d1.month.toNat d2.month.toNat with h | h
      · exact Or.inl h
      · have hmeq : d1.month.toNat = d2.month.toNat := by omega
        rw [hmeq]
        exact Or.inr ⟨rfl, rfl⟩
    · omega


/-- Parsing a month bucket key recovers the year and month. -/
theorem parseYM_monthKey (d : Date) (h1 : 1000 ≤ d.year.toNat) (h2 : d.year.toNat ≤ 9999)
    (hm1 : 1 ≤ d.month.toNat) (hm2 : d.month.toNat ≤ 12) :
    parseYM (App.periodKeyOf .month d) =
      some { year := (d.year.toNat : Int), month := (d.month.toNat : Int), day := 1 } := by
  have hd := monthKey_data d h1 h2
  simp only [parseYM, hd]
  simp only [isDigitCh_digitChar (d.year.toNat / 1000) (by omega),
    isDigitCh_digitChar (d.year.toNat / 100 % 10) (by omega),
    isDigitCh_digitChar (d.year.toNat / 10 % 10) (by omega),
    isDigitCh_digitChar (d.year.toNat % 10) (by omega),
    isDigitCh_digitChar (d.month.toNat / 10) (by omega),
    isDigitCh_digitChar (d.month.toNat % 10) (by omega),
    digitVal_digitChar (d.year.toNat / 1000) (by omega),
    digitVal_digitChar (d.year.toNat / 100 % 10) (by omega),
    digitVal_digitChar (d.year.toNat / 10 % 10) (by omega),
    digitVal_digitChar (d.year.toNat % 10) (by omega),
    digitVal_digitChar (d.month.toNat / 10) (by omega),
    digitVal_digitChar (d.month.toNat % 10) (by omega)]
  have hyv : (1000 : Int) * (d.year.toNat / 1000 : Nat) + 100 * (d.year.toNat / 100 % 10 : Nat) +
      10 * (d.year.toNat / 10 % 10 : Nat) + (d.year.toNat % 10 : Nat) = (d.year.toNat : Int) := by
    omega
  have hmv : (10 : Int) * (d.month.toNat / 10 : Nat) + (d.month.toNat % 10 : Nat) =
      (d.month.toNat : Int) := by
    omega
  rw [hyv, hmv]
  rw [if_pos (by simp), if_pos]
  simp only [Bool.and_eq_true, decide_eq_true_eq]
  omega

/-- The chronological rank of a bucket key: month keys rank by month index,
day and week keys by the epoch-day number of the parsed date. -/
def keyRank (period : App.TimePeriod) (k : String) : Int :=
  match period with
  | .month =>
    match parseYM k with
    | some d => 12 * d.year + d.month
    | none => 0
  | _ => App.keyTimeRank k

theorem keyRank_monthKey (d : Date) (h1 : 1000 ≤ d.year.toNat) (h2 : d.year.toNat ≤ 9999)
    (hm1 : 1 ≤ d.month.toNat) (hm2 : d.month.toNat ≤ 12) :
    keyRank .month (App.periodKeyOf .month d) =
      12 * (d.year.toNat : Int) + (d.month.toNat : Int) := by
  simp [keyRank, parseYM_monthKey d h1 h2 hm1 hm2]


/-! ## The sort comparator is total and transitive -/

theorem chListLe_total : ∀ as bs : List Char,
    (App.chListLe as bs || App.chListLe bs as) = true := by
  intro as
  induction as with
  | nil => intro bs; simp [App.chListLe]
  | cons a at' ih =>
    intro bs
    cases bs with
    | nil => simp [App.chListLe]
    | cons b bt =>
      simp only [App.chListLe]
      rcases lt_trichotomy a b with h | h | h
      · simp [h]
      · subst h
        simp only [lt_self_iff_false, if_false]
        exact ih bt
      · simp [h, lt_asymm h]

theorem chListLe_trans : ∀ as bs cs : List Char,
    App.chListLe as bs = true → App.chListLe bs cs = true → App.chListLe as cs = true := by
  intro as
  induction as with
  | nil => intro bs cs _ _; simp [App.chListLe]
  | cons a at' ih =>
    intro bs cs h1 h2
    cases bs with
    | nil => simp [App.chListLe] at h1
    | cons b bt =>
      cases cs with
      | nil => simp [App.chListLe] at h2
      | cons c ct =>
        simp only [App.chListLe] at h1 h2 ⊢
        by_cases hab : a < b
        · by_cases hbc : b < c
          · rw [if_pos (lt_trans hab hbc)]
          · by_cases hcb : c < b
            · rw [if_neg hbc, if_pos hcb] at h2
              exact absurd h2 (by simp)
            · have hbceq : b = c := le_antisymm (le_of_not_lt hcb) (le_of_not_lt hbc)
              rw [if_pos (hbceq ▸ hab)]
        · by_cases hba : b < a
          · rw [if_neg hab, if_pos hba] at h1
            exact absurd h1 (by simp)
          · have habeq : a = b := le_antisymm (le_of_not_lt hba) (le_of_not_lt hab)
            subst habeq
            rw [if_neg (lt_irrefl a), if_neg (lt_irrefl a)] at h1
            by_cases hac : a < c
            · rw [if_pos hac]
            · by_cases hca : c < a
              · rw [if_neg hac, if_pos hca] at h2
                exact absurd h2 (by simp)
              · rw [if_neg hac, if_neg hca] at h2 ⊢
                exact ih bt ct h1 h2

theorem tsLe_trans (p : App.TimePeriod) : ∀ a b c : TimeSeriesPoint,
    App.tsLe p a b → App.tsLe p b c → App.tsLe p a c := by
  intro a b c h1 h2
  cases p with
  | month => exact chListLe_trans _ _ _ h1 h2
  | day =>
    simp only [App.tsLe, decide_eq_true_eq] at h1 h2 ⊢
    omega
  | week =>
    simp only [App.tsLe, decide_eq_true_eq] at h1 h2 ⊢
    omega

theorem tsLe_total (p : App.TimePeriod) : ∀ a b : TimeSeriesPoint,
    (App.tsLe p a b || App.tsLe p b a) = true := by
  intro a b
  cases p with
  | month => exact chListLe_total _ _
  | day =>
    simp only [App.tsLe, Bool.or_eq_true, decide_eq_true_eq]
    omega
  | week =>
    simp only [App.tsLe, Bool.or_eq_true, decide_eq_true_eq]
    omega


/-! ## The grouping fold: per-key sums, key uniqueness, completeness -/

/-- The per-entry category sum (`categories.reduce(..., 0)`). -/
def catSum (cats : List App.CategoryTotal) : ℚ :=
  cats.foldl (fun sum category => sum + category.totalAmount) 0

/-- The exact sum of all observations mapping to bucket key `k`. -/
def bucketSum (data : App.SalesData) (period : App.TimePeriod) (k : String) : ℚ :=
  ((data.filter (fun e => App.periodKeyOf period e.1 = k)).map (fun e => catSum e.2)).sum

/-- Whether any observation maps to bucket key `k`. -/
def hasBucket (data : App.SalesData) (period : App.TimePeriod) (k : String) : Bool :=
  data.any (fun e => App.periodKeyOf period e.1 = k)

theorem jsRecordGet_cons (e : String × ℚ) (m : List (String × ℚ)) (k : String) :
    App.jsRecordGet (e :: m) k = if e.1 = k then some e.2 else App.jsRecordGet m k := by
  by_cases he : e.1 = k <;> simp [App.jsRecordGet, List.find?_cons, he]

/-- `jsRecordAdd m k v`: the effect of one bucket update — add `v` into the
existing entry for `k`, or append a fresh entry. -/
def jsRecordAdd (m : List (String × ℚ)) (k : String) (v : ℚ) : List (String × ℚ) :=
  match App.jsRecordGet m k with
  | some t => m.map (fun e => if e.1 = k then (k, t + v) else e)
  | none => m ++ [(k, v)]

/-- `groupStep` is `jsRecordAdd` (the JS truthiness test on a zero
accumulated value overwrites with `v = 0 + v`, the same result). -/
theorem groupStep_eq (period : App.TimePeriod) (m : List (String × ℚ))
    (e : Date × List App.CategoryTotal) :
    App.groupStep period m e = jsRecordAdd m (App.periodKeyOf period e.1) (catSum e.2) := by
  simp only [App.groupStep, jsRecordAdd, catSum]
  rcases hg : App.jsRecordGet m (App.periodKeyOf period e.1) with _ | t
  · have hf : m.find? (fun x => x.1 = App.periodKeyOf period e.1) = none := by
      simpa [App.jsRecordGet] using hg
    simp [App.jsRecordPut, hf]
  · have hf : (m.find? (fun x => x.1 = App.periodKeyOf period e.1)).isSome := by
      simp only [App.jsRecordGet] at hg
      rcases Option.map_eq_some'.mp hg with ⟨a, ha, -⟩
      simp [ha]
    by_cases ht : t ≠ 0
    · simp [ht, App.jsRecordPut, hf]
    · push_neg at ht
      subst ht
      simp [App.jsRecordPut, hf]

theorem jsRecordGet_map_update (m : List (String × ℚ)) (k : String) (w : ℚ) :
    App.jsRecordGet (m.map (fun e => if e.1 = k then (k, w) else e)) k =
      (App.jsRecordGet m k).map (fun _ => w) := by
  induction m with
  | nil => simp [App.jsRecordGet]
  | cons e t ih =>
    rw [List.map_cons, jsRecordGet_cons, jsRecordGet_cons]
    by_cases he : e.1 = k
    · simp [he]
    · simp [he, ih]

theorem jsRecordGet_map_update_ne (m : List (String × ℚ)) (k k' : String) (w : ℚ)
    (h : k' ≠ k) :
    App.jsRecordGet (m.map (fun e => if e.1 = k then (k, w) else e)) k' =
      App.jsRecordGet m k' := by
  induction m with
  | nil => simp
  | cons e t ih =>
    rw [List.map_cons, jsRecordGet_cons, jsRecordGet_cons]
    by_cases he : e.1 = k
    · simp [he, Ne.symm h, ih]
    · simp [he, ih]

theorem jsRecordGet_append_single (m : List (String × ℚ)) (k : String) (v : ℚ) :
    App.jsRecordGet (m ++ [(k, v)]) k = some ((App.jsRecordGet m k).getD v) := by
  induction m with
  | nil => simp [App.jsRecordGet]
  | cons e t ih =>
    rw [List.cons_append, jsRecordGet_cons, jsRecordGet_cons]
    by_cases he : e.1 = k
    · simp [he]
    · simp [he, ih]

theorem jsRecordGet_append_single_ne (m : List (String × ℚ)) (k k' : String) (v : ℚ)
    (h : k' ≠ k) :
    App.jsRecordGet (m ++ [(k, v)]) k' = App.jsRecordGet m k' := by
  induction m with
  | nil => simp [App.jsRecordGet, List.find?_cons, Ne.symm h]
  | cons e t ih =>
    rw [List.cons_append, jsRecordGet_cons, jsRecordGet_cons]
    by_cases he : e.1 = k'
    · rw [if_pos he, if_pos he]
    · rw [if_neg he, if_neg he]
      exact ih

theorem jsRecordAdd_get_self (m : List (String × ℚ)) (k : String) (v : ℚ) :
    App.jsRecordGet (jsRecordAdd m k v) k =
      some ((App.jsRecordGet m k).getD 0 + v) := by
  rcases hg : App.jsRecordGet m k with _ | t
  · simp only [jsRecordAdd, hg]
    rw [jsRecordGet_append_single, hg]
    simp
  · simp only [jsRecordAdd, hg]
    rw [jsRecordGet_map_update, hg]
    simp

theorem jsRecordAdd_get_ne (m : List (String × ℚ)) (k k' : String) (v : ℚ) (h : k' ≠ k) :
    App.jsRecordGet (jsRecordAdd m k v) k' = App.jsRecordGet m k' := by
  rcases hg : App.jsRecordGet m k with _ | t
  · simp only [jsRecordAdd, hg]
    exact jsRecordGet_append_single_ne m k k' v h
  · simp only [jsRecordAdd, hg]
    exact jsRecordGet_map_update_ne m k k' _ h

/-- With no matching observation the exact bucket sum is zero. -/
theorem bucketSum_eq_zero (data : App.SalesData) (period : App.TimePeriod) (k : String)
    (h : hasBucket data period k = false) : bucketSum data period k = 0 := by
  unfold bucketSum
  have hf : data.filter (fun e => App.periodKeyOf period e.1 = k) = [] := by
    rw [List.filter_eq_nil_iff]
    intro e he
    simp only [hasBucket, List.any_eq_false] at h
    exact h e he
  rw [hf]
  simp

theorem hasBucket_cons (e : Date × List App.CategoryTotal) (rest : App.SalesData)
    (period : App.TimePeriod) (k : String) :
    hasBucket (e :: rest) period k =
      (decide (App.periodKeyOf period e.1 = k) || hasBucket rest period k) := by
  simp [hasBucket]

theorem bucketSum_cons (e : Date × List App.CategoryTotal) (rest : App.SalesData)
    (period : App.TimePeriod) (k : String) :
    bucketSum (e :: rest) period k =
      (if App.periodKeyOf period e.1 = k then catSum e.2 else 0) + bucketSum rest period k := by
  unfold bucketSum
  by_cases he : App.periodKeyOf period e.1 = k
  · rw [List.filter_cons_of_pos (by simpa using he)]
    simp [he]
  · rw [List.filter_cons_of_neg (by simpa using he)]
    simp [he]

/-- The grouping fold computes exactly the per-key sums (relative to any
accumulator record). -/
theorem foldl_groupStep_get (period : App.TimePeriod) :
    ∀ (data : App.SalesData) (m : List (String × ℚ)) (k : String),
      App.jsRecordGet (data.foldl (App.groupStep period) m) k =
        match App.jsRecordGet m k, hasBucket data period k with
        | some t, true => some (t + bucketSum data period k)
        | some t, false => some t
        | none, true => some (bucketSum data period k)
        | none, false => none := by
  intro data
  induction data with
  | nil =>
    intro m k
    rcases hg : App.jsRecordGet m k with _ | t <;> simp [hasBucket, hg]
  | cons e rest ih =>
    intro m k
    rw [List.foldl_cons, groupStep_eq, ih, hasBucket_cons, bucketSum_cons]
    by_cases hk : App.periodKeyOf period e.1 = k
    · rw [hk, jsRecordAdd_get_self]
      rcases hg : App.jsRecordGet m k with _ | t
      · rcases hr : hasBucket rest period k with _ | _
        · simp [bucketSum_eq_zero rest period k hr]
        · simp
      · rcases hr : hasBucket rest period k with _ | _
        · simp [bucketSum_eq_zero rest period k hr]
        · simp [add_assoc]
    · rw [jsRecordAdd_get_ne m _ k _ (fun hc => hk hc.symm)]
      rcases App.jsRecordGet m k with _ | t <;>
        rcases hasBucket rest period k with _ | _ <;>
          simp [hk]


theorem groupData_get (data : App.SalesData) (period : App.TimePeriod) (k : String) :
    App.jsRecordGet (App.groupDataByPeriod data period) k =
      if hasBucket data period k then some (bucketSum data period k) else none := by
  have h := foldl_groupStep_get period data [] k
  simp only [App.groupDataByPeriod]
  rw [h]
  have hnil : App.jsRecordGet [] k = none := rfl
  rw [hnil]
  rcases hasBucket data period k with _ | _ <;> simp

theorem fst_update_preserve (k : String) (w : ℚ) (e : String × ℚ) :
    (if e.1 = k then (k, w) else e).1 = e.1 := by
  by_cases h : e.1 = k <;> simp [h]

theorem jsRecordAdd_keys (m : List (String × ℚ)) (k : String) (v : ℚ) :
    (jsRecordAdd m k v).map Prod.fst =
      if (App.jsRecordGet m k).isSome then m.map Prod.fst
      else m.map Prod.fst ++ [k] := by
  rcases hg : App.jsRecordGet m k with _ | t
  · simp [jsRecordAdd, hg]
  · simp only [jsRecordAdd, hg, Option.isSome_some, if_true]
    rw [List.map_map]
    exact List.map_congr_left (fun e _ => fst_update_preserve k (t + v) e)

theorem jsRecordGet_eq_none_iff (m : List (String × ℚ)) (k : String) :
    App.jsRecordGet m k = none ↔ k ∉ m.map Prod.fst := by
  induction m with
  | nil => simp [App.jsRecordGet]
  | cons e t ih =>
    rw [jsRecordGet_cons]
    by_cases he : e.1 = k
    · simp [he]
    · simp [he, ih, Ne.symm he]

theorem groupData_keys_nodup (data : App.SalesData) (period : App.TimePeriod) :
    ((App.groupDataByPeriod data period).map Prod.fst).Nodup := by
  suffices h : ∀ (data : App.SalesData) (m : List (String × ℚ)),
      (m.map Prod.fst).Nodup → ((data.foldl (App.groupStep period) m).map Prod.fst).Nodup by
    exact h data [] (by simp)
  intro data
  induction data with
  | nil => intro m hm; simpa using hm
  | cons e rest ih =>
    intro m hm
    rw [List.foldl_cons, groupStep_eq]
    apply ih
    rw [jsRecordAdd_keys]
    split
    · exact hm
    · rename_i hsome
      have hnone : App.jsRecordGet m (App.periodKeyOf period e.1) = none :=
        Option.not_isSome_iff_eq_none.mp hsome
      have hnot := (jsRecordGet_eq_none_iff m _).mp hnone
      simp [List.nodup_append, hm, hnot]

theorem get_of_mem_nodup :
    ∀ (m : List (String × ℚ)), (m.map Prod.fst).Nodup →
      ∀ (k : String) (v : ℚ), (k, v) ∈ m → App.jsRecordGet m k = some v := by
  intro m
  induction m with
  | nil => intro _ k v h; simp at h
  | cons e t ih =>
    intro hnd k v h
    rw [jsRecordGet_cons]
    rcases List.mem_cons.mp h with he | ht
    · rw [← he]
      simp
    · rw [List.map_cons, List.nodup_cons] at hnd
      have hne : e.1 ≠ k := by
        intro hc
        apply hnd.1
        rw [hc]
        exact List.mem_map.mpr ⟨(k, v), ht, rfl⟩
      rw [if_neg hne]
      exact ih hnd.2 k v ht

theorem mem_keys_of_get (m : List (String × ℚ)) (k : String) (t : ℚ)
    (h : App.jsRecordGet m k = some t) : k ∈ m.map Prod.fst := by
  by_contra hc
  rw [(jsRecordGet_eq_none_iff m k).mpr hc] at h
  simp at h

theorem groupData_mem (data : App.SalesData) (period : App.TimePeriod) (k : String) (v : ℚ)
    (h : (k, v) ∈ App.groupDataByPeriod data period) :
    hasBucket data period k = true ∧ v = bucketSum data period k := by
  have hget := get_of_mem_nodup _ (groupData_keys_nodup data period) k v h
  rw [groupData_get] at hget
  rcases hb : hasBucket data period k with _ | _
  · rw [hb] at hget; simp at hget
  · rw [hb] at hget
    simp only [if_true, Option.some.injEq] at hget
    exact ⟨rfl, hget.symm⟩

theorem groupData_key_mem (data : App.SalesData) (period : App.TimePeriod)
    (e : Date × List App.CategoryTotal) (he : e ∈ data) :
    App.periodKeyOf period e.1 ∈ (App.groupDataByPeriod data period).map Prod.fst := by
  have hb : hasBucket data period (App.periodKeyOf period e.1) = true :=
    List.any_eq_true.mpr ⟨e, he, by simp⟩
  have hget := groupData_get data period (App.periodKeyOf period e.1)
  rw [hb, if_pos rfl] at hget
  exact mem_keys_of_get _ _ _ hget

/-- Every point of `prepareTimeSeriesData` is a bucket entry with its total
rounded to cents. -/
theorem prepare_elem_spec (data : App.SalesData) (period : App.TimePeriod)
    (q : TimeSeriesPoint) (hq : q ∈ App.prepareTimeSeriesData data period) :
    ∃ k v, (k, v) ∈ App.groupDataByPeriod data period ∧
      q = { period := k, total := App.jsRound2 v } := by
  simp only [App.prepareTimeSeriesData] at hq
  rw [List.mem_mergeSort] at hq
  rcases List.mem_map.mp hq with ⟨e, he, rfl⟩
  exact ⟨e.1, e.2, he, rfl⟩

/-- Every bucket key of a point of `prepareTimeSeriesData` is the bucket key
of some observation date. -/
theorem prepare_elem_date (data : App.SalesData) (period : App.TimePeriod)
    (q : TimeSeriesPoint) (hq : q ∈ App.prepareTimeSeriesData data period) :
    ∃ e ∈ data, q.period = App.periodKeyOf period e.1 := by
  obtain ⟨k, v, hkv, rfl⟩ := prepare_elem_spec data period q hq
  obtain ⟨hb, -⟩ := groupData_mem data period k v hkv
  obtain ⟨e, he, hkey⟩ := List.any_eq_true.mp hb
  refine ⟨e, he, ?_⟩
  have hk := of_decide_eq_true hkey
  exact hk.symm


/-! ## Claim C6 — bucketer ordering and (rounded) sum preservation -/

/-- C6 (amended): under calendar-valid observation dates with 4-digit years,
the bucketer's output is sorted in ascending chronological order of the
bucket key (month keys by month index, day/week keys by the parsed epoch
day), every observation's bucket key appears in the output, and each output
total is the *rounded-to-cents* exact sum of the matching observations
(`Math.round(total * 100) / 100`) — not the exact sum itself (see the
counterexample). -/
theorem bucketer_sorted_and_rounded_sums (data : App.SalesData) (period : App.TimePeriod)
    (hdates : ∀ e ∈ data, 1000 ≤ e.1.year.toNat ∧ e.1.year.toNat ≤ 9999 ∧
      1 ≤ e.1.month.toNat ∧ e.1.month.toNat ≤ 12) :
    ((App.prepareTimeSeriesData data period).map
        (fun p => keyRank period p.period)).Pairwise (· ≤ ·) ∧
    (∀ p ∈ App.prepareTimeSeriesData data period,
      p.total = App.jsRound2 (bucketSum data period p.period)) ∧
    (∀ e ∈ data, App.periodKeyOf period e.1 ∈
      (App.prepareTimeSeriesData data period).map (·.period)) := by
  refine ⟨?_, ?_, ?_⟩
  · have hs : (App.prepareTimeSeriesData data period).Pairwise
        (fun a b => App.tsLe period a b = true) := by
      simp only [App.prepareTimeSeriesData]
      exact List.sorted_mergeSort (tsLe_trans period) (tsLe_total period) _
    rw [List.pairwise_map]
    refine hs.imp_of_mem ?_
    intro a b ha hb hab
    obtain ⟨ea, hea, hka⟩ := prepare_elem_date data period a ha
    obtain ⟨eb, heb, hkb⟩ := prepare_elem_date data period b hb
    cases period with
    | month =>
      obtain ⟨hya1, hya2, hma1, hma2⟩ := hdates ea hea
      obtain ⟨hyb1, hyb2, hmb1, hmb2⟩ := hdates eb heb
      simp only [App.tsLe] at hab
      rw [hka, hkb] at hab ⊢
      rw [keyRank_monthKey ea.1 hya1 hya2 hma1 hma2,
        keyRank_monthKey eb.1 hyb1 hyb2 hmb1 hmb2]
      have := (monthKey_chListLe_iff ea.1 eb.1 hya1 hya2 hyb1 hyb2 hma1 hma2 hmb1 hmb2).mp hab
      omega
    | day =>
      simp only [App.tsLe, decide_eq_true_eq] at hab
      simpa [keyRank] using hab
    | week =>
      simp only [App.tsLe, decide_eq_true_eq] at hab
      simpa [keyRank] using hab
  · intro p hp
    obtain ⟨k, v, hkv, rfl⟩ := prepare_elem_spec data period p hp
    obtain ⟨-, hv⟩ := groupData_mem data period k v hkv
    simp [hv]
  · intro e he
    have hk := groupData_key_mem data period e he
    simp only [App.prepareTimeSeriesData]
    rcases List.mem_map.mp hk with ⟨ent, hent, hke⟩
    rw [← hke]
    exact List.mem_map.mpr
      ⟨{ period := ent.1, total := App.jsRound2 ent.2 },
       List.mem_mergeSort.mpr (List.mem_map.mpr ⟨ent, hent, rfl⟩), rfl⟩


/-- Counterexample to C6 as stated: the bucket total delivered by
`prepareTimeSeriesData` is `Math.round(total * 100) / 100` of the exact sum,
so an observation of 1/200 (half a cent) comes out as 1/100, not 1/200 —
the sum does not round-trip exactly. -/
theorem bucketer_rounds_cents :
    ∃ p ∈ App.prepareTimeSeriesData
        [(⟨2024, 1, 15⟩, [⟨"a", (1 : ℚ)/200⟩])] App.TimePeriod.month,
      p.total ≠
        bucketSum [(⟨2024, 1, 15⟩, [⟨"a", (1 : ℚ)/200⟩])] App.TimePeriod.month p.period := by
  refine ⟨{ period := "2024-01", total := App.jsRound2 (0 + 1/200) }, ?_, ?_⟩
  · simp only [App.prepareTimeSeriesData]
    refine List.mem_mergeSort.mpr ?_
    have h0 : App.groupDataByPeriod
        [(⟨2024, 1, 15⟩, [⟨"a", (1 : ℚ)/200⟩])] App.TimePeriod.month =
        [("2024-01", 0 + 1/200)] := rfl
    rw [h0]
    simp
  · have hb : bucketSum [(⟨2024, 1, 15⟩, [⟨"a", (1 : ℚ)/200⟩])] App.TimePeriod.month
        "2024-01" = 0 + 1/200 + 0 := rfl
    simp only [hb, App.jsRound2]
    rw [show ((0 : ℚ) + 1/200) * 100 = 1/2 from by norm_num, round_eq]
    norm_num

/-- Witness for `bucketer_sorted_and_rounded_sums` at a concrete two-month
dataset given out of order. -/
theorem bucketer_sorted_and_rounded_sums_witness :
    (∀ e ∈ ([(⟨2024, 2, 10⟩, [⟨"a", (5 : ℚ)⟩]), (⟨2024, 1, 15⟩, [⟨"b", (3 : ℚ)⟩])] :
        App.SalesData), 1000 ≤ e.1.year.toNat ∧ e.1.year.toNat ≤ 9999 ∧
        1 ≤ e.1.month.toNat ∧ e.1.month.toNat ≤ 12) ∧
    (((App.prepareTimeSeriesData
        [(⟨2024, 2, 10⟩, [⟨"a", (5 : ℚ)⟩]), (⟨2024, 1, 15⟩, [⟨"b", (3 : ℚ)⟩])]
        App.TimePeriod.month).map
          (fun p => keyRank App.TimePeriod.month p.period)).Pairwise (· ≤ ·) ∧
      (∀ p ∈ App.prepareTimeSeriesData
          [(⟨2024, 2, 10⟩, [⟨"a", (5 : ℚ)⟩]), (⟨2024, 1, 15⟩, [⟨"b", (3 : ℚ)⟩])]
          App.TimePeriod.month,
        p.total = App.jsRound2 (bucketSum
          [(⟨2024, 2, 10⟩, [⟨"a", (5 : ℚ)⟩]), (⟨2024, 1, 15⟩, [⟨"b", (3 : ℚ)⟩])]
          App.TimePeriod.month p.period)) ∧
      (∀ e ∈ ([(⟨2024, 2, 10⟩, [⟨"a", (5 : ℚ)⟩]), (⟨2024, 1, 15⟩, [⟨"b", (3 : ℚ)⟩])] :
          App.SalesData),
        App.periodKeyOf App.TimePeriod.month e.1 ∈
          (App.prepareTimeSeriesData
            [(⟨2024, 2, 10⟩, [⟨"a", (5 : ℚ)⟩]), (⟨2024, 1, 15⟩, [⟨"b", (3 : ℚ)⟩])]
            App.TimePeriod.month).map (fun p => p.period))) :=
  ⟨by decide, bucketer_sorted_and_rounded_sums _ _ (by decide)⟩

/-! ## Claim C8 — concrete `advance` equalities -/

/-- C8: the period-label advancement satisfies
`advance("2024-01", "month", 1) = "2024-02"`,
`advance("2024-12", "month", 1) = "2025-01"` (year rollover), and
`advance("2024-01-29", "day", 3) = "2024-02-01"` (month-end rollover),
for any value of the (unused, parse succeeds) current time. -/
theorem advance_concrete_examples (now : Date) :
    generateNextPeriod now "2024-01" "month" 1 = "2024-02" ∧
    generateNextPeriod now "2024-12" "month" 1 = "2025-01" ∧
    generateNextPeriod now "2024-01-29" "day" 3 = "2024-02-01" := by
  refine ⟨?_, ?_, ?_⟩
  · have h1 : parseYM "2024-01" = some { year := 2024, month := 1, day := 1 } := by decide
    simp [generateNextPeriod, h1]
    decide
  · have h1 : parseYM "2024-12" = some { year := 2024, month := 12, day := 1 } := by decide
    simp [generateNextPeriod, h1]
    decide
  · have h1 : parseYMD "2024-01-29" = some { year := 2024, month := 1, day := 29 } := by decide
    simp [generateNextPeriod, h1]
    decide

/-- Witness for C8 at a concrete current time. -/
theorem advance_concrete_examples_witness :
    generateNextPeriod { year := 2025, month := 6, day := 15 } "2024-01" "month" 1 = "2024-02" :=
  (advance_concrete_examples { year := 2025, month := 6, day := 15 }).1

/-! ## Claim C3 — behaviour of `generateNextPeriod` on unparsable labels -/

/-- C3 (the code's actual behaviour, contradicting the claim): on a label
that fails to parse, `generateNextPeriod` does not fail — it silently
substitutes the current time `now` as the base date and returns a forecast
label advanced from today. -/
theorem generateNextPeriod_substitutes_now (now : Date) :
    generateNextPeriod now "not-a-date" "day" 1 = fmtYMD (now.addDate 0 0 1) := by
  have h1 : parseYMD "not-a-date" = none := by decide
  simp [generateNextPeriod, h1]

/-- Witness for C3's code-evaluation theorem at a concrete current time. -/
theorem generateNextPeriod_substitutes_now_witness :
    generateNextPeriod { year := 2025, month := 6, day := 15 } "not-a-date" "day" 1 =
      "2025-06-16" :=
  (generateNextPeriod_substitutes_now { year := 2025, month := 6, day := 15 }).trans (by decide)
